import Mathlib

/-!
Verification of the J2KSwift benchmarking scripts
(`Scripts/compare_performance.py` and `Scripts/profile_encoder.py`)
against their natural-language specification.

The Python code is shallowly embedded: pure expressions become Lean
functions over `ℚ` (Python's `statistics` module computes with exact
fractions, and every float operation the claims touch is exact on the
inputs involved, except the square root inside `statistics.stdev`,
which is embedded via `Real.sqrt`); expressions that can raise become
`Except String` values; the filesystem becomes an explicit map from
paths to byte lists.
-/

deriving instance DecidableEq for Except

namespace J2KSwift

/-- Python division `a / b`: raises `ZeroDivisionError` when `b` is zero. -/
def pyDiv (a b : ℚ) : Except String ℚ :=
  if b = 0 then .error "ZeroDivisionError: float division by zero" else .ok (a / b)

/-- Python `statistics.mean(l)`: raises `StatisticsError` on an empty sequence,
otherwise returns the exact arithmetic mean. -/
def pyMean (l : List ℚ) : Except String ℚ :=
  if l.isEmpty then .error "StatisticsError: mean requires at least one data point"
  else .ok (l.sum / l.length)

/-- Insertion of an element into a sorted list, the building block of the
embedding of Python's `sorted`. -/
def insertSorted {α : Type} [LinearOrder α] (x : α) : List α → List α
  | [] => [x]
  | y :: ys => if x ≤ y then x :: y :: ys else y :: insertSorted x ys

/-- Python `sorted(l)` (on a linearly ordered element type the value of any
correct sort, so insertion sort is an exact embedding). -/
def pySorted {α : Type} [LinearOrder α] (l : List α) : List α := l.foldr insertSorted []

/-- Python `sorted(set(l))` for a list of naturals: the distinct values in
ascending order. -/
def pySortedSet (l : List ℕ) : List ℕ := pySorted l.dedup

/-- compare_performance.py, class `BenchmarkResult` (lines 20-29): container
for one implementation/size/operation measurement.  `times` holds seconds per
trial; `compressed_size` is an optional byte count. -/
structure BenchmarkResult where
  implementation : String
  image_size : ℕ
  operation : String
  times : List ℚ
  compressed_size : Option ℕ
  deriving DecidableEq

/-- compare_performance.py line 33:
`statistics.mean(self.times) if self.times else 0.0`. -/
def BenchmarkResult.average (r : BenchmarkResult) : ℚ :=
  if r.times.isEmpty then 0 else r.times.sum / r.times.length

/-- compare_performance.py line 37:
`statistics.median(self.times) if self.times else 0.0`; `statistics.median`
sorts the data and returns the middle element (odd count) or the midpoint of
the two central elements (even count). -/
def BenchmarkResult.median (r : BenchmarkResult) : ℚ :=
  if r.times.isEmpty then 0
  else
    let s := pySorted r.times
    let n := s.length
    if n % 2 = 1 then s.getD (n / 2) 0
    else (s.getD (n / 2 - 1) 0 + s.getD (n / 2) 0) / 2

/-- Sample variance with Bessel correction (`n - 1` divisor), the quantity
whose square root `statistics.stdev` returns. -/
def sampleVariance (l : List ℚ) : ℚ :=
  let m := l.sum / l.length
  (l.map (fun x => (x - m) ^ 2)).sum / ((l.length : ℚ) - 1)

/-- compare_performance.py line 41:
`statistics.stdev(self.times) if len(self.times) > 1 else 0.0`. -/
noncomputable def BenchmarkResult.std_dev (r : BenchmarkResult) : ℝ :=
  if 1 < r.times.length then Real.sqrt ((sampleVariance r.times : ℚ) : ℝ) else 0

/-- compare_performance.py line 45: `min(self.times) if self.times else 0.0`. -/
def BenchmarkResult.min_time (r : BenchmarkResult) : ℚ :=
  match r.times with
  | [] => 0
  | x :: xs => xs.foldl min x

/-- compare_performance.py line 49: `max(self.times) if self.times else 0.0`. -/
def BenchmarkResult.max_time (r : BenchmarkResult) : ℚ :=
  match r.times with
  | [] => 0
  | x :: xs => xs.foldl max x

/-- compare_performance.py lines 52-57: megapixels per second, guarded by
`if self.average > 0`, else `0.0`. -/
def BenchmarkResult.throughput (r : BenchmarkResult) : ℚ :=
  if 0 < r.average then
    let megapixels : ℚ := ((r.image_size * r.image_size : ℕ) : ℚ) / 1000000
    megapixels / r.average
  else 0

/-- Helper constructor mirroring `BenchmarkResult.__init__` plus a direct
assignment of the `times` list. -/
def mkResult (implementation : String) (image_size : ℕ) (operation : String)
    (times : List ℚ) : BenchmarkResult :=
  { implementation := implementation, image_size := image_size,
    operation := operation, times := times, compressed_size := none }

/-- compare_performance.py lines 103-123 (`run_j2kswift_benchmark`), the
process-invocation skeleton.  The two parameters are the exit codes the
external candidate tool returns for the combined invocation and for the
encode-only retry; the returned list records the encode-only flag of each
invocation actually performed, in order, and the error is the RuntimeError
raised when both invocations exit non-zero. -/
def runCandidateWithRetry (combinedRc encodeOnlyRc : Int) : Except String (List Bool) :=
  if combinedRc ≠ 0 then
    if encodeOnlyRc ≠ 0 then .error "J2KSwift benchmark failed even with encode-only"
    else .ok [false, true]
  else .ok [false]

/-- Filesystem model: a map from canonical path to file bytes. -/
def FS : Type := String → Option (List ℕ)

/-- Writing a file replaces the bytes stored at its path. -/
def FS.write (fs : FS) (p : String) (content : List ℕ) : FS :=
  fun q => if q = p then some content else fs q

/-- The canonical corpus path for one size, `test_{size}x{size}.pgm`, used by
both scripts. -/
def pgmPath (size : ℕ) : String :=
  "test_" ++ toString size ++ "x" ++ toString size ++ ".pgm"

/-- The PGM header bytes `P5\n{size} {size}\n255\n` written by both scripts. -/
def pgmHeader (size : ℕ) : List ℕ :=
  ("P5\n" ++ toString size ++ " " ++ toString size ++ "\n255\n").data.map Char.toNat

/-- profile_encoder.py lines 25-28: the gradient pixel bytes, `(x + y) % 256`
row by row. -/
def gradientData (size : ℕ) : List ℕ :=
  (List.range size).flatMap (fun y => (List.range size).map (fun x => (x + y) % 256))

/-- compare_performance.py main, lines 297-308: write the test image unless a
file already exists at its canonical path.  `randomData` stands for the
random pixel bytes the script would generate on this call. -/
def ensureTestImageCompare (size : ℕ) (randomData : List ℕ) (fs : FS) : FS :=
  if (fs (pgmPath size)).isSome then fs
  else fs.write (pgmPath size) (pgmHeader size ++ randomData)

/-- profile_encoder.py lines 18-29: `create_test_image` always writes the
header plus the gradient pattern. -/
def create_test_image (size : ℕ) (fs : FS) (p : String) : FS :=
  fs.write p (pgmHeader size ++ gradientData size)

/-- profile_encoder.py main, lines 325-331: create the test image only when no
file exists at its canonical path. -/
def ensureTestImageProfile (size : ℕ) (fs : FS) : FS :=
  if (fs (pgmPath size)).isSome then fs else create_test_image size fs (pgmPath size)

/-- profile_encoder.py `analyze_results` (lines 103-128), restricted to the
fields the scalability analysis reads: `pixels = image_size * image_size` and
the average encode time in milliseconds from the structured document. -/
structure EncAnalysis where
  pixels : ℕ
  avg_time_ms : ℚ
  deriving DecidableEq

/-- profile_encoder.py line 181: the super-linear report line. -/
def superLinearMsg : String :=
  "✅ **Super-linear scaling** - Performance improves with larger images"

/-- profile_encoder.py line 183: the linear report line. -/
def linearMsg : String := "✅ **Linear scaling** - Good performance characteristics"

/-- profile_encoder.py line 185: the sub-linear report line. -/
def subLinearMsg : String := "⚠️ **Sub-linear scaling** - Some overhead present"

/-- profile_encoder.py line 187: the poor-scaling report line. -/
def poorScalingMsg : String := "❌ **Poor scaling** - Significant bottlenecks present"

/-- profile_encoder.py lines 180-187: the if/elif classification of the
scaling factor, returning the report line appended. -/
def classifyScaling (sf : ℚ) : String :=
  if sf < 9/10 then superLinearMsg
  else if sf < 11/10 then linearMsg
  else if sf < 3/2 then subLinearMsg
  else poorScalingMsg

/-- profile_encoder.py `generate_report`, lines 163-188: the scalability
analysis.  Returns `.ok none` when the analysis is skipped (fewer than two
entries in `all_results`), otherwise the
`(pixel_ratio, time_ratio, scaling_factor, classification)` tuple computed
from the first and last entries of `all_results` in list order; each division
raises `ZeroDivisionError` on a zero denominator. -/
def scalabilitySection (all_results : List EncAnalysis) :
    Except String (Option (ℚ × ℚ × ℚ × String)) :=
  if 2 ≤ all_results.length then
    match all_results.head?, all_results.getLast? with
    | some first, some last => do
        let pixel_rate ← pyDiv (last.pixels : ℚ) (first.pixels : ℚ)
        let time_rate ← pyDiv last.avg_time_ms first.avg_time_ms
        let scaling_factor ← pyDiv time_rate pixel_rate
        .ok (some (pixel_rate, time_rate, scaling_factor, classifyScaling scaling_factor))
    | _, _ => .ok none
  else .ok none

/-- Left zero-padding of a digit string to a fixed width. -/
def padZeros (s : String) (n : ℕ) : String :=
  String.mk (List.replicate (n - s.length) '0') ++ s

/-- Embedding of the Python fixed-point format specifier on exact values:
the value is scaled by `10 ^ d`, rounded to the nearest integer, and printed
with `d` digits after the point.  Both reports use this one function for
every numeric cell, so report equality reduces to equality of these cells. -/
def formatFixed (d : ℕ) (q : ℚ) : String :=
  let m : ℤ := round (q * (10 : ℚ) ^ d)
  let sign := if m < 0 then "-" else ""
  let a := m.natAbs
  let ip := a / 10 ^ d
  let fp := a % 10 ^ d
  if d = 0 then sign ++ toString ip
  else sign ++ toString ip ++ "." ++ padZeros (toString fp) d

/-- One line of the markdown report: either a fixed text line, or one data row
of a comparison table.  A row carries the operation the table groups by, the
image size, the implementation, the formatted metric cells in column order,
and the final relative-speed cell. -/
inductive Line where
  | text (s : String)
  | row (op : String) (size : ℕ) (impl : String) (cells : List String) (rel : String)
  deriving DecidableEq

/-- Sequential effectful map: Python loops raise out of the loop at the first
failing iteration. -/
def exceptMapM {α β : Type} (f : α → Except String β) : List α → Except String (List β)
  | [] => .ok []
  | x :: l => do
      let y ← f x
      let ys ← exceptMapM f l
      .ok (y :: ys)

/-- The five statistic cells shared by every data row: average, median, min,
max (all in ms, one decimal), and throughput (two decimals);
compare_performance.py lines 173, 177, 194, 197. -/
def statCells (r : BenchmarkResult) : List String :=
  [formatFixed 1 (r.average * 1000), formatFixed 1 (r.median * 1000),
   formatFixed 1 (r.min_time * 1000), formatFixed 1 (r.max_time * 1000),
   formatFixed 2 r.throughput]

/-- compare_performance.py lines 172 and 176:
`f"..." if result.compressed_size else "N/A"` — Python truthiness, so both a
missing and a zero compressed size render as `N/A`. -/
def sizeKbCell (r : BenchmarkResult) : String :=
  match r.compressed_size with
  | some n => if n = 0 then "N/A" else formatFixed 1 ((n : ℚ) / 1024)
  | none => "N/A"

/-- compare_performance.py lines 171 and 193: the relative-speed cell
`f"{(openjpeg.average / j2kswift.average * 100):.1f}%" if openjpeg else "N/A"`.
The division is unguarded, so it raises when the candidate average is zero. -/
def relativeCellE (openjpeg : Option BenchmarkResult) (j : BenchmarkResult) :
    Except String String :=
  match openjpeg with
  | some o => do
      let q ← pyDiv o.average j.average
      .ok (formatFixed 1 (q * 100) ++ "%")
  | none => .ok "N/A"

/-- The value `relativeCellE` takes on its non-raising path. -/
def relativeCellPure (openjpeg : Option BenchmarkResult) (j : BenchmarkResult) : String :=
  match openjpeg with
  | some o => formatFixed 1 (o.average / j.average * 100) ++ "%"
  | none => "N/A"

/-- compare_performance.py lines 165-177: the encode-table rows for one image
size — the J2KSwift row first (if a J2KSwift result exists), then the
OpenJPEG row (if one exists, with the fixed `100.0%` relative cell). -/
def encodeRowsFor (encode_results : List BenchmarkResult) (size : ℕ) :
    Except String (List Line) := do
  let size_results := encode_results.filter (fun r => r.image_size == size)
  let openjpeg := size_results.find? (fun r => r.implementation == "OpenJPEG")
  let j2kswift := size_results.find? (fun r => r.implementation == "J2KSwift")
  let jRows ← match j2kswift with
    | some j => do
        let rel ← relativeCellE openjpeg j
        Except.ok [Line.row "encode" size "J2KSwift" (statCells j ++ [sizeKbCell j]) rel]
    | none => Except.ok ([] : List Line)
  let oRows := match openjpeg with
    | some o => [Line.row "encode" size "OpenJPEG" (statCells o ++ [sizeKbCell o]) "100.0%"]
    | none => ([] : List Line)
  Except.ok (jRows ++ oRows)

/-- The rows `encodeRowsFor` emits on its non-raising path. -/
def encodeRowsPure (encode_results : List BenchmarkResult) (size : ℕ) : List Line :=
  let size_results := encode_results.filter (fun r => r.image_size == size)
  let openjpeg := size_results.find? (fun r => r.implementation == "OpenJPEG")
  let j2kswift := size_results.find? (fun r => r.implementation == "J2KSwift")
  (match j2kswift with
   | some j =>
       [Line.row "encode" size "J2KSwift" (statCells j ++ [sizeKbCell j])
         (relativeCellPure openjpeg j)]
   | none => []) ++
  (match openjpeg with
   | some o => [Line.row "encode" size "OpenJPEG" (statCells o ++ [sizeKbCell o]) "100.0%"]
   | none => [])

/-- compare_performance.py lines 187-197: the decode-table rows for one image
size, J2KSwift before OpenJPEG, without the compressed-size column. -/
def decodeRowsFor (decode_results : List BenchmarkResult) (size : ℕ) :
    Except String (List Line) := do
  let size_results := decode_results.filter (fun r => r.image_size == size)
  let openjpeg := size_results.find? (fun r => r.implementation == "OpenJPEG")
  let j2kswift := size_results.find? (fun r => r.implementation == "J2KSwift")
  let jRows ← match j2kswift with
    | some j => do
        let rel ← relativeCellE openjpeg j
        Except.ok [Line.row "decode" size "J2KSwift" (statCells j) rel]
    | none => Except.ok ([] : List Line)
  let oRows := match openjpeg with
    | some o => [Line.row "decode" size "OpenJPEG" (statCells o) "100.0%"]
    | none => ([] : List Line)
  Except.ok (jRows ++ oRows)

/-- The rows `decodeRowsFor` emits on its non-raising path. -/
def decodeRowsPure (decode_results : List BenchmarkResult) (size : ℕ) : List Line :=
  let size_results := decode_results.filter (fun r => r.image_size == size)
  let openjpeg := size_results.find? (fun r => r.implementation == "OpenJPEG")
  let j2kswift := size_results.find? (fun r => r.implementation == "J2KSwift")
  (match j2kswift with
   | some j => [Line.row "decode" size "J2KSwift" (statCells j) (relativeCellPure openjpeg j)]
   | none => []) ++
  (match openjpeg with
   | some o => [Line.row "decode" size "OpenJPEG" (statCells o) "100.0%"]
   | none => [])

/-- compare_performance.py line 229: the narrative line stating that decode
was unavailable, printed instead of a zero decode figure. -/
def decodeUnavailableMsg : String :=
  "- **Decoding**: J2KSwift decoder currently has errors preventing benchmark"

/-- compare_performance.py lines 202-230: the summary section.  The two
encode means are unguarded `statistics.mean` calls (they raise on an empty
selection); the decode means are guarded by the non-emptiness test. -/
def summaryE (results : List BenchmarkResult) : Except String (List Line) := do
  let encode_results := results.filter (fun r => r.operation == "encode")
  let decode_results := results.filter (fun r => r.operation == "decode")
  let j2k_encode_avg ← pyMean
    ((encode_results.filter (fun r => r.implementation == "J2KSwift")).map BenchmarkResult.average)
  let opj_encode_avg ← pyMean
    ((encode_results.filter (fun r => r.implementation == "OpenJPEG")).map BenchmarkResult.average)
  let encodeRel := if 0 < j2k_encode_avg then opj_encode_avg / j2k_encode_avg * 100 else 0
  let j2k_decode_results := decode_results.filter (fun r => r.implementation == "J2KSwift")
  let opj_decode_results := decode_results.filter (fun r => r.implementation == "OpenJPEG")
  let decodeRel ←
    if j2k_decode_results.isEmpty || opj_decode_results.isEmpty then Except.ok (0 : ℚ)
    else do
      let j2k_decode_avg ← pyMean (j2k_decode_results.map BenchmarkResult.average)
      let opj_decode_avg ← pyMean (opj_decode_results.map BenchmarkResult.average)
      Except.ok (if 0 < j2k_decode_avg then opj_decode_avg / j2k_decode_avg * 100 else 0)
  Except.ok
    ([Line.text ("- **Encoding**: J2KSwift is " ++ formatFixed 1 encodeRel ++ "% of OpenJPEG speed"),
      Line.text "  - Target: ≥80% (within 80% of OpenJPEG)",
      Line.text ("  - Status: " ++ (if 80 ≤ encodeRel then "✅ PASS" else "❌ FAIL")),
      Line.text ""] ++
     (if j2k_decode_results.isEmpty then [Line.text decodeUnavailableMsg]
      else
        [Line.text ("- **Decoding**: J2KSwift is " ++ formatFixed 1 decodeRel ++ "% of OpenJPEG speed"),
         Line.text "  - Target: ≥80% (within 80% of OpenJPEG)",
         Line.text ("  - Status: " ++ (if 80 ≤ decodeRel then "✅ PASS" else "❌ FAIL"))]) ++
     [Line.text ""])

/-- compare_performance.py lines 148-151: the report header. -/
def mdHeader (timestamp : String) : List Line :=
  [Line.text "# J2KSwift vs OpenJPEG Performance Comparison", Line.text "",
   Line.text ("**Generated**: " ++ timestamp), Line.text ""]

/-- compare_performance.py lines 158-161: the encode-table heading lines. -/
def encTableHeader : List Line :=
  [Line.text "## Encoding Performance", Line.text "",
   Line.text "| Image Size | Implementation | Avg (ms) | Median (ms) | Min (ms) | Max (ms) | Throughput (MP/s) | Compressed Size (KB) | vs OpenJPEG |",
   Line.text "|------------|----------------|----------|-------------|----------|----------|-------------------|---------------------|-------------|"]

/-- compare_performance.py lines 182-185: the decode-table heading lines. -/
def decTableHeader : List Line :=
  [Line.text "## Decoding Performance", Line.text "",
   Line.text "| Image Size | Implementation | Avg (ms) | Median (ms) | Min (ms) | Max (ms) | Throughput (MP/s) | vs OpenJPEG |",
   Line.text "|------------|----------------|----------|-------------|----------|----------|-------------------|-------------|"]

/-- compare_performance.py `generate_markdown_report` (lines 145-233): header,
encode table over `sorted(set(...))` of the encode sizes, decode table over
the same sizes, then the summary; the wall-clock timestamp of line 150 is a
parameter. -/
def generate_markdown_report (timestamp : String) (results : List BenchmarkResult) :
    Except String (List Line) := do
  let encode_results := results.filter (fun r => r.operation == "encode")
  let decode_results := results.filter (fun r => r.operation == "decode")
  let sizes := pySortedSet (encode_results.map BenchmarkResult.image_size)
  let encBlocks ← exceptMapM (encodeRowsFor encode_results) sizes
  let decBlocks ← exceptMapM (decodeRowsFor decode_results) sizes
  let summary ← summaryE results
  Except.ok (mdHeader timestamp ++ encTableHeader ++ encBlocks.flatten ++ [Line.text ""] ++
    decTableHeader ++ decBlocks.flatten ++ [Line.text ""] ++
    [Line.text "## Summary", Line.text ""] ++ summary)

/-- compare_performance.py lines 126-142: the structured result document of
the candidate tool, as read after a successful benchmark invocation.  The
`decode` key may be absent (`none`). -/
structure BenchData where
  width : ℕ
  encode_runs : List ℚ
  encode_compressed_size : Option ℕ
  decode_runs : Option (List ℚ)
  deriving DecidableEq

/-- compare_performance.py lines 129-142: build the `(encode_result,
decode_result)` pair from the structured document; run times are converted
from milliseconds to seconds, and the decode result is `none` exactly when
the document has no decode section. -/
def run_j2kswift_parse (d : BenchData) : BenchmarkResult × Option BenchmarkResult :=
  ({ implementation := "J2KSwift", image_size := d.width, operation := "encode",
     times := d.encode_runs.map (fun t => t / 1000),
     compressed_size := d.encode_compressed_size },
   d.decode_runs.map (fun runs =>
     { implementation := "J2KSwift", image_size := d.width, operation := "decode",
       times := runs.map (fun t => t / 1000), compressed_size := none }))

/-- The sort key data of one table row: grouping operation, image size,
implementation, and the relative-speed cell. -/
structure RowInfo where
  op : String
  size : ℕ
  impl : String
  rel : String
  deriving DecidableEq

/-- Project a report line to its row data (`none` for text lines). -/
def Line.rowInfo : Line → Option RowInfo
  | .row op size impl _ rel => some ⟨op, size, impl, rel⟩
  | .text _ => none

/-- The row order the tables claim: ascending image size, and within one size
the candidate (J2KSwift) row before the reference (OpenJPEG) row. -/
def rowOrder (a b : RowInfo) : Prop :=
  a.size < b.size ∨ (a.size = b.size ∧ a.impl = "J2KSwift" ∧ b.impl = "OpenJPEG")

/-- compare_performance.py line 239: the fixed CSV header line. -/
def csvHeader : String :=
  "ImageSize,Implementation,Operation,AvgTime(ms),MedianTime(ms),MinTime(ms),MaxTime(ms),StdDev(ms),Throughput(MP/s),CompressedSize(B)"

/-- One CSV data row, field by field; the standard deviation is carried as
the exact value it formats (the only cell whose value involves a square
root). -/
structure CsvRow where
  imageSize : ℕ
  implementation : String
  operation : String
  avgMs : String
  medianMs : String
  minMs : String
  maxMs : String
  stdDevMs : ℝ
  throughputCell : String
  compressedCell : String

/-- compare_performance.py lines 241-243: one CSV row per result;
`r.compressed_size if r.compressed_size else ''` renders both a missing and
a zero compressed size as the empty field. -/
noncomputable def mkCsvRow (r : BenchmarkResult) : CsvRow :=
  { imageSize := r.image_size, implementation := r.implementation,
    operation := r.operation,
    avgMs := formatFixed 3 (r.average * 1000),
    medianMs := formatFixed 3 (r.median * 1000),
    minMs := formatFixed 3 (r.min_time * 1000),
    maxMs := formatFixed 3 (r.max_time * 1000),
    stdDevMs := r.std_dev * 1000,
    throughputCell := formatFixed 3 r.throughput,
    compressedCell := match r.compressed_size with
      | some n => if n = 0 then "" else toString n
      | none => "" }

/-- compare_performance.py `generate_csv_report` (lines 236-245): the data
rows, one per result, in input order. -/
noncomputable def generate_csv_rows (results : List BenchmarkResult) : List CsvRow :=
  results.map mkCsvRow

/-- Replace a measured-as-zero compressed size by an absent one, the
transformation claim C10 says the reports cannot observe. -/
def collapseZeroSize (r : BenchmarkResult) : BenchmarkResult :=
  if r.compressed_size = some 0 then { r with compressed_size := none } else r

/-- A sample encode result whose compressed size was measured as zero
bytes. -/
def zeroSizeSample : BenchmarkResult :=
  { implementation := "J2KSwift", image_size := 256, operation := "encode",
    times := [1], compressed_size := some 0 }

theorem average_nil (r : BenchmarkResult) (h : r.times = []) : r.average = 0 := by
  simp [BenchmarkResult.average, h]

theorem throughput_of_average_zero (r : BenchmarkResult) (h : r.average = 0) :
    r.throughput = 0 := by
  simp [BenchmarkResult.throughput, h]

/-- Claim C1: for every `BenchmarkResult` whose timings sequence is empty, each
derived metric accessor (average, median, std_dev, min_time, max_time,
throughput) returns 0; each accessor is a total function (the Python guards
`if self.times` / `len(self.times) > 1` / `self.average > 0` are the branches
taken here), so no error is raised. -/
theorem C1_empty_timings_all_zero (r : BenchmarkResult) (h : r.times = []) :
    r.average = 0 ∧ r.median = 0 ∧ r.std_dev = 0 ∧ r.min_time = 0 ∧
    r.max_time = 0 ∧ r.throughput = 0 := by
  refine ⟨average_nil r h, ?_, ?_, ?_, ?_, ?_⟩
  · simp [BenchmarkResult.median, h]
  · simp [BenchmarkResult.std_dev, h]
  · simp [BenchmarkResult.min_time, h]
  · simp [BenchmarkResult.max_time, h]
  · exact throughput_of_average_zero r (average_nil r h)

/-- Witness for C1 at the concrete empty-timings result. -/
theorem C1_empty_timings_all_zero_witness :
    (mkResult "J2KSwift" 256 "encode" []).times = [] ∧
    ((mkResult "J2KSwift" 256 "encode" []).average = 0 ∧
     (mkResult "J2KSwift" 256 "encode" []).median = 0 ∧
     (mkResult "J2KSwift" 256 "encode" []).std_dev = 0 ∧
     (mkResult "J2KSwift" 256 "encode" []).min_time = 0 ∧
     (mkResult "J2KSwift" 256 "encode" []).max_time = 0 ∧
     (mkResult "J2KSwift" 256 "encode" []).throughput = 0) :=
  ⟨rfl, C1_empty_timings_all_zero (mkResult "J2KSwift" 256 "encode" []) rfl⟩

/-- Claim C2: throughput equals `(image_size * image_size / 1000000) / average`
when the average is positive, and equals 0 when the average is 0 or the
timings list is empty (the division is syntactically guarded by
`if self.average > 0`, so it never divides by zero); at `image_size = 512`
and `average = 0.1 s` it equals exactly `2.62144` MP/s, hence within `1e-6`
of that value. -/
theorem C2_throughput_formula (r : BenchmarkResult) :
    (0 < r.average →
      r.throughput = ((r.image_size * r.image_size : ℕ) : ℚ) / 1000000 / r.average) ∧
    (r.average = 0 ∨ r.times = [] → r.throughput = 0) ∧
    ((mkResult "J2KSwift" 512 "encode" [1/10]).average = 1/10 ∧
     (mkResult "J2KSwift" 512 "encode" [1/10]).throughput = 262144/100000 ∧
     |(mkResult "J2KSwift" 512 "encode" [1/10]).throughput - 262144/100000| < 1/1000000) := by
  refine ⟨fun h => ?_, fun h => ?_, by norm_num [mkResult, BenchmarkResult.average,
    BenchmarkResult.throughput], ?_, ?_⟩
  · simp [BenchmarkResult.throughput, h]
  · rcases h with h | h
    · exact throughput_of_average_zero r h
    · exact throughput_of_average_zero r (average_nil r h)
  · norm_num [mkResult, BenchmarkResult.average, BenchmarkResult.throughput]
  · norm_num [mkResult, BenchmarkResult.average, BenchmarkResult.throughput]

/-- Witness for C2 at a concrete positive-average result and a concrete
empty result. -/
theorem C2_throughput_formula_witness :
    (0 < (mkResult "J2KSwift" 512 "encode" [1/10]).average ∧
      (mkResult "J2KSwift" 512 "encode" [1/10]).throughput =
        ((512 * 512 : ℕ) : ℚ) / 1000000 / (mkResult "J2KSwift" 512 "encode" [1/10]).average) ∧
    (mkResult "OpenJPEG" 256 "decode" []).throughput = 0 :=
  ⟨⟨by norm_num [mkResult, BenchmarkResult.average],
    (C2_throughput_formula (mkResult "J2KSwift" 512 "encode" [1/10])).1
      (by norm_num [mkResult, BenchmarkResult.average])⟩,
   (C2_throughput_formula (mkResult "OpenJPEG" 256 "decode" [])).2.1 (Or.inr rfl)⟩

/-- Claim C3: `std_dev` is the Bessel-corrected (`n - 1` divisor) sample
standard deviation of the timings when there are at least 2 of them, and is 0
(not an error: the guarded branch) when there are fewer than 2; concretely for
timings `[10, 20, 30]`: average 20, median 20, sample standard deviation 10,
min 10, max 30. -/
theorem C3_std_dev_bessel (r : BenchmarkResult) :
    (r.times.length < 2 → r.std_dev = 0) ∧
    (2 ≤ r.times.length →
      r.std_dev = Real.sqrt ((sampleVariance r.times : ℚ) : ℝ)) ∧
    ((mkResult "J2KSwift" 256 "encode" [10, 20, 30]).average = 20 ∧
     (mkResult "J2KSwift" 256 "encode" [10, 20, 30]).median = 20 ∧
     (mkResult "J2KSwift" 256 "encode" [10, 20, 30]).std_dev = 10 ∧
     (mkResult "J2KSwift" 256 "encode" [10, 20, 30]).min_time = 10 ∧
     (mkResult "J2KSwift" 256 "encode" [10, 20, 30]).max_time = 30) := by
  refine ⟨fun h => ?_, fun h => ?_, ?_, ?_, ?_, ?_, ?_⟩
  · have hc : ¬ 1 < r.times.length := by omega
    simp [BenchmarkResult.std_dev, hc]
  · have hc : 1 < r.times.length := by omega
    simp [BenchmarkResult.std_dev, hc]
  · norm_num [mkResult, BenchmarkResult.average]
  · norm_num [mkResult, BenchmarkResult.median, pySorted, insertSorted]
  · have hvar : sampleVariance ([10, 20, 30] : List ℚ) = 100 := by
      norm_num [sampleVariance]
    have hlen : 1 < ([10, 20, 30] : List ℚ).length := by norm_num
    simp only [BenchmarkResult.std_dev, mkResult, hlen, if_true, hvar]
    have hcast : ((100 : ℚ) : ℝ) = (10 : ℝ) ^ 2 := by norm_num
    rw [hcast]
    exact Real.sqrt_sq (by norm_num)
  · norm_num [mkResult, BenchmarkResult.min_time]
  · norm_num [mkResult, BenchmarkResult.max_time]

/-- Witness for C3: the short-list branch at a singleton and the long-list
branch at `[10, 20, 30]`. -/
theorem C3_std_dev_bessel_witness :
    ((mkResult "J2KSwift" 256 "encode" [5]).times.length < 2 ∧
      (mkResult "J2KSwift" 256 "encode" [5]).std_dev = 0) ∧
    (2 ≤ (mkResult "J2KSwift" 256 "encode" [10, 20, 30]).times.length ∧
      (mkResult "J2KSwift" 256 "encode" [10, 20, 30]).std_dev =
        Real.sqrt ((sampleVariance ([10, 20, 30] : List ℚ) : ℚ) : ℝ)) :=
  ⟨⟨by decide, (C3_std_dev_bessel (mkResult "J2KSwift" 256 "encode" [5])).1 (by decide)⟩,
   ⟨by decide, (C3_std_dev_bessel (mkResult "J2KSwift" 256 "encode" [10, 20, 30])).2.1
      (by decide)⟩⟩

/-- Claim C4: if the combined encode+decode benchmark process exits non-zero,
the candidate adapter retries exactly once with the encode-only flag (the
invocation trace is `[false, true]`: the combined call, then the single
encode-only call); if that retry also exits non-zero it raises a fatal error;
if either invocation exits zero no error is raised at this step. -/
theorem C4_candidate_retry_contract (combinedRc encodeOnlyRc : Int) :
    (combinedRc ≠ 0 → encodeOnlyRc ≠ 0 →
      runCandidateWithRetry combinedRc encodeOnlyRc =
        .error "J2KSwift benchmark failed even with encode-only") ∧
    (combinedRc ≠ 0 → encodeOnlyRc = 0 →
      runCandidateWithRetry combinedRc encodeOnlyRc = .ok [false, true]) ∧
    (combinedRc = 0 → runCandidateWithRetry combinedRc encodeOnlyRc = .ok [false]) ∧
    (combinedRc = 0 ∨ encodeOnlyRc = 0 →
      ∃ trace, runCandidateWithRetry combinedRc encodeOnlyRc = .ok trace) := by
  refine ⟨fun hc he => ?_, fun hc he => ?_, fun hc => ?_, fun h => ?_⟩
  · simp [runCandidateWithRetry, hc, he]
  · simp [runCandidateWithRetry, hc, he]
  · simp [runCandidateWithRetry, hc]
  · rcases h with hc | he
    · exact ⟨[false], by simp [runCandidateWithRetry, hc]⟩
    · by_cases hc : combinedRc = 0
      · exact ⟨[false], by simp [runCandidateWithRetry, hc]⟩
      · exact ⟨[false, true], by simp [runCandidateWithRetry, hc, he]⟩

/-- Witness for C4 at the three concrete exit-code situations. -/
theorem C4_candidate_retry_contract_witness :
    ((1 : Int) ≠ 0 ∧ (1 : Int) ≠ 0 ∧
      runCandidateWithRetry 1 1 = .error "J2KSwift benchmark failed even with encode-only") ∧
    (runCandidateWithRetry 1 0 = .ok [false, true]) ∧
    (runCandidateWithRetry 0 5 = .ok [false]) :=
  ⟨⟨by decide, by decide,
      (C4_candidate_retry_contract 1 1).1 (by decide) (by decide)⟩,
   (C4_candidate_retry_contract 1 0).2.1 (by decide) rfl,
   (C4_candidate_retry_contract 0 5).2.2.1 rfl⟩

theorem ensureCompare_of_isSome (size : ℕ) (d : List ℕ) (fs : FS)
    (h : (fs (pgmPath size)).isSome = true) :
    ensureTestImageCompare size d fs = fs := by
  simp [ensureTestImageCompare, h]

theorem ensureProfile_of_isSome (size : ℕ) (fs : FS)
    (h : (fs (pgmPath size)).isSome = true) :
    ensureTestImageProfile size fs = fs := by
  simp [ensureTestImageProfile, h]

/-- Claim C8: for every positive size, running corpus generation when the
output file for that size already exists at its canonical path leaves the
filesystem (in particular that file's bytes) unchanged, in both scripts; and
generating twice in a row is always the same as generating once. -/
theorem C8_corpus_idempotent (size : ℕ) (fs : FS) (randomData b : List ℕ)
    (hpos : 0 < size) (hex : fs (pgmPath size) = some b) :
    (ensureTestImageCompare size randomData fs = fs ∧
     ensureTestImageCompare size randomData fs (pgmPath size) = some b) ∧
    (ensureTestImageProfile size fs = fs ∧
     ensureTestImageProfile size fs (pgmPath size) = some b) ∧
    (∀ (fs0 : FS) (d1 d2 : List ℕ),
      ensureTestImageCompare size d2 (ensureTestImageCompare size d1 fs0) =
        ensureTestImageCompare size d1 fs0 ∧
      ensureTestImageProfile size (ensureTestImageProfile size fs0) =
        ensureTestImageProfile size fs0) := by
  have hskip : ensureTestImageCompare size randomData fs = fs :=
    ensureCompare_of_isSome size randomData fs (by simp [hex])
  have hskip' : ensureTestImageProfile size fs = fs :=
    ensureProfile_of_isSome size fs (by simp [hex])
  refine ⟨⟨hskip, by rw [hskip, hex]⟩, ⟨hskip', by rw [hskip', hex]⟩, fun fs0 d1 d2 => ⟨?_, ?_⟩⟩
  · have h1 : ((ensureTestImageCompare size d1 fs0) (pgmPath size)).isSome = true := by
      by_cases h : (fs0 (pgmPath size)).isSome = true
      · rw [ensureCompare_of_isSome size d1 fs0 h]; exact h
      · simp [ensureTestImageCompare, h, FS.write]
    exact ensureCompare_of_isSome size d2 _ h1
  · have h1 : ((ensureTestImageProfile size fs0) (pgmPath size)).isSome = true := by
      by_cases h : (fs0 (pgmPath size)).isSome = true
      · rw [ensureProfile_of_isSome size fs0 h]; exact h
      · simp [ensureTestImageProfile, h, create_test_image, FS.write]
    exact ensureProfile_of_isSome size _ h1

/-- Witness for C8 at size 1 over a one-file filesystem. -/
theorem C8_corpus_idempotent_witness :
    0 < 1 ∧
    (fun p => if p = pgmPath 1 then some [7] else none : FS) (pgmPath 1) = some [7] ∧
    (ensureTestImageCompare 1 [9] (fun p => if p = pgmPath 1 then some [7] else none) =
        (fun p => if p = pgmPath 1 then some [7] else none : FS) ∧
      ensureTestImageCompare 1 [9] (fun p => if p = pgmPath 1 then some [7] else none)
        (pgmPath 1) = some [7]) :=
  ⟨Nat.one_pos, by simp,
    (C8_corpus_idempotent 1 (fun p => if p = pgmPath 1 then some [7] else none)
      [9] [7] Nat.one_pos (by simp)).1⟩

/-- Counterexample for claim C7: with two entries of the *same* size (one
distinct size, so the claim demands the analysis be skipped), the code still
runs the analysis — `all_results` has length 2 — and reports linear scaling.
Moreover the code never sorts: it uses the first and last entries of the list
in collection order, not the smallest and largest sizes (second conjunct:
reversing a two-size list inverts the computed ratios). -/
theorem C7_scalability_counterexample :
    ((([⟨4, 10⟩, ⟨4, 10⟩] : List EncAnalysis).map EncAnalysis.pixels).dedup.length = 1 ∧
      scalabilitySection [⟨4, 10⟩, ⟨4, 10⟩] = .ok (some (1, 1, 1, linearMsg)) ∧
      scalabilitySection [⟨4, 10⟩, ⟨4, 10⟩] ≠ .ok none) ∧
    scalabilitySection [⟨4, 2⟩, ⟨1, 1⟩] =
      .ok (some (1/4, 1/2, 2, classifyScaling 2)) := by
  have h1 : scalabilitySection [⟨4, 10⟩, ⟨4, 10⟩] = .ok (some (1, 1, 1, linearMsg)) := by
    simp [scalabilitySection, List.getLast?, pyDiv, Bind.bind, Except.bind, classifyScaling]
    norm_num
  refine ⟨⟨by decide, h1, ?_⟩, ?_⟩
  · rw [h1]
    intro hcontra
    exact Option.noConfusion (Except.ok.inj hcontra)
  · simp [scalabilitySection, List.getLast?, pyDiv, Bind.bind, Except.bind, classifyScaling]
    norm_num [subLinearMsg, poorScalingMsg, linearMsg, superLinearMsg]

/-- Claim C7 as amended: the scalability analysis uses the first and last
entries of the collected encode-analysis list in list order (which are the
smallest and largest sizes only when the sizes were supplied in ascending
order), computes `scaling_factor = time_ratio / pixel_ratio`, classifies it
into exactly one of the four lower-bound-inclusive bands
`[0, 0.9)`, `[0.9, 1.1)`, `[1.1, 1.5)`, `[1.5, ∞)` (the four report lines are
pairwise distinct), and is skipped without error whenever the list has fewer
than two entries — entries with duplicate sizes still count towards the two. -/
theorem C7_scalability_amended (rs : List EncAnalysis) (first last : EncAnalysis)
    (h2 : 2 ≤ rs.length) (hf : rs.head? = some first) (hl : rs.getLast? = some last)
    (hfp : 0 < first.pixels) (hlp : 0 < last.pixels) (hft : 0 < first.avg_time_ms) :
    (scalabilitySection rs = .ok (some
      ((last.pixels : ℚ) / (first.pixels : ℚ),
       last.avg_time_ms / first.avg_time_ms,
       last.avg_time_ms / first.avg_time_ms / ((last.pixels : ℚ) / (first.pixels : ℚ)),
       classifyScaling
         (last.avg_time_ms / first.avg_time_ms / ((last.pixels : ℚ) / (first.pixels : ℚ)))))) ∧
    (∀ sf : ℚ,
      (sf < 9/10 → classifyScaling sf = superLinearMsg) ∧
      (9/10 ≤ sf → sf < 11/10 → classifyScaling sf = linearMsg) ∧
      (11/10 ≤ sf → sf < 3/2 → classifyScaling sf = subLinearMsg) ∧
      (3/2 ≤ sf → classifyScaling sf = poorScalingMsg)) ∧
    [superLinearMsg, linearMsg, subLinearMsg, poorScalingMsg].Nodup ∧
    (∀ rs2 : List EncAnalysis, rs2.length < 2 → scalabilitySection rs2 = .ok none) := by
  refine ⟨?_, fun sf => ⟨fun hb => ?_, fun hb hb' => ?_, fun hb hb' => ?_, fun hb => ?_⟩,
    by decide, fun rs2 hlen => ?_⟩
  · have hb1 : ((first.pixels : ℚ)) ≠ 0 := by positivity
    have hb2 : first.avg_time_ms ≠ 0 := ne_of_gt hft
    have hb3 : ((last.pixels : ℚ)) / ((first.pixels : ℚ)) ≠ 0 := by positivity
    simp [scalabilitySection, h2, hf, hl, pyDiv, hb1, hb2, hb3, Bind.bind, Except.bind]
  · simp [classifyScaling, hb]
  · have h1 : ¬ sf < 9/10 := by linarith
    simp [classifyScaling, h1, hb']
  · have h1 : ¬ sf < 9/10 := by linarith
    have h2' : ¬ sf < 11/10 := by linarith
    simp [classifyScaling, h1, h2', hb']
  · have h1 : ¬ sf < 9/10 := by linarith
    have h2' : ¬ sf < 11/10 := by linarith
    have h3 : ¬ sf < 3/2 := by linarith
    simp [classifyScaling, h1, h2', h3]
  · have hne : ¬ 2 ≤ rs2.length := by omega
    simp [scalabilitySection, hne]

/-- Witness for C7 at the concrete two-entry ascending list. -/
theorem C7_scalability_amended_witness :
    2 ≤ ([⟨1, 1⟩, ⟨4, 2⟩] : List EncAnalysis).length ∧
    ([⟨1, 1⟩, ⟨4, 2⟩] : List EncAnalysis).head? = some ⟨1, 1⟩ ∧
    ([⟨1, 1⟩, ⟨4, 2⟩] : List EncAnalysis).getLast? = some ⟨4, 2⟩ ∧
    0 < (⟨1, 1⟩ : EncAnalysis).pixels ∧ 0 < (⟨4, 2⟩ : EncAnalysis).pixels ∧
    0 < (⟨1, 1⟩ : EncAnalysis).avg_time_ms ∧
    scalabilitySection [⟨1, 1⟩, ⟨4, 2⟩] = .ok (some
      (((⟨4, 2⟩ : EncAnalysis).pixels : ℚ) / ((⟨1, 1⟩ : EncAnalysis).pixels : ℚ),
       (⟨4, 2⟩ : EncAnalysis).avg_time_ms / (⟨1, 1⟩ : EncAnalysis).avg_time_ms,
       (⟨4, 2⟩ : EncAnalysis).avg_time_ms / (⟨1, 1⟩ : EncAnalysis).avg_time_ms /
         (((⟨4, 2⟩ : EncAnalysis).pixels : ℚ) / ((⟨1, 1⟩ : EncAnalysis).pixels : ℚ)),
       classifyScaling ((⟨4, 2⟩ : EncAnalysis).avg_time_ms / (⟨1, 1⟩ : EncAnalysis).avg_time_ms /
         (((⟨4, 2⟩ : EncAnalysis).pixels : ℚ) / ((⟨1, 1⟩ : EncAnalysis).pixels : ℚ))))) :=
  ⟨by decide, rfl, by decide, by decide, by decide, by decide,
   (C7_scalability_amended [⟨1, 1⟩, ⟨4, 2⟩] ⟨1, 1⟩ ⟨4, 2⟩ (by decide) rfl (by decide)
      (by decide) (by decide) (by decide)).1⟩

theorem exceptMapM_ok {α β : Type} (f : α → Except String β) (g : α → β) :
    ∀ l : List α, (∀ x ∈ l, f x = .ok (g x)) → exceptMapM f l = .ok (l.map g)
  | [], _ => rfl
  | x :: l, h => by
    have hx := h x (List.mem_cons_self x l)
    have hl := exceptMapM_ok f g l (fun y hy => h y (List.mem_cons_of_mem x hy))
    simp [exceptMapM, hx, hl, Bind.bind, Except.bind]

theorem relativeCellE_ok (openjpeg : Option BenchmarkResult) (j : BenchmarkResult)
    (hja : j.average ≠ 0) :
    relativeCellE openjpeg j = .ok (relativeCellPure openjpeg j) := by
  cases openjpeg with
  | none => rfl
  | some o => simp [relativeCellE, relativeCellPure, pyDiv, hja, Bind.bind, Except.bind]

theorem find?_impl_mem {l : List BenchmarkResult} {name : String} {r : BenchmarkResult}
    (h : l.find? (fun x => x.implementation == name) = some r) :
    r ∈ l ∧ r.implementation = name :=
  ⟨List.mem_of_find?_eq_some h, by simpa using List.find?_some h⟩

theorem encodeRowsFor_ok (encode_results : List BenchmarkResult) (size : ℕ)
    (h : ∀ r ∈ encode_results, r.implementation = "J2KSwift" → r.average ≠ 0) :
    encodeRowsFor encode_results size = .ok (encodeRowsPure encode_results size) := by
  unfold encodeRowsFor encodeRowsPure
  cases hj : (encode_results.filter (fun r => r.image_size == size)).find?
      (fun r => r.implementation == "J2KSwift") with
  | none => simp [hj, Bind.bind, Except.bind]
  | some j =>
      have hmem := find?_impl_mem hj
      have hja : j.average ≠ 0 := h j (List.mem_filter.mp hmem.1).1 hmem.2
      simp [hj, relativeCellE_ok _ j hja, Bind.bind, Except.bind]

theorem decodeRowsFor_ok (decode_results : List BenchmarkResult) (size : ℕ)
    (h : ∀ r ∈ decode_results, r.implementation = "J2KSwift" → r.average ≠ 0) :
    decodeRowsFor decode_results size = .ok (decodeRowsPure decode_results size) := by
  unfold decodeRowsFor decodeRowsPure
  cases hj : (decode_results.filter (fun r => r.image_size == size)).find?
      (fun r => r.implementation == "J2KSwift") with
  | none => simp [hj, Bind.bind, Except.bind]
  | some j =>
      have hmem := find?_impl_mem hj
      have hja : j.average ≠ 0 := h j (List.mem_filter.mp hmem.1).1 hmem.2
      simp [hj, relativeCellE_ok _ j hja, Bind.bind, Except.bind]

theorem summaryE_ok (results : List BenchmarkResult)
    (h2 : (results.filter (fun r => r.operation == "encode")).filter
        (fun r => r.implementation == "J2KSwift") ≠ [])
    (h3 : (results.filter (fun r => r.operation == "encode")).filter
        (fun r => r.implementation == "OpenJPEG") ≠ []) :
    ∃ summaryLines, summaryE results = .ok summaryLines ∧
      (∀ l ∈ summaryLines, ∃ s, l = Line.text s) ∧
      ((results.filter (fun r => r.operation == "decode")).filter
          (fun r => r.implementation == "J2KSwift") = [] →
        Line.text decodeUnavailableMsg ∈ summaryLines) := by
  have e2 : (((results.filter fun r => r.operation == "encode").filter
      fun r => r.implementation == "J2KSwift").map BenchmarkResult.average).isEmpty = false := by
    rw [List.isEmpty_eq_false]
    simpa using h2
  have e3 : (((results.filter fun r => r.operation == "encode").filter
      fun r => r.implementation == "OpenJPEG").map BenchmarkResult.average).isEmpty = false := by
    rw [List.isEmpty_eq_false]
    simpa using h3
  unfold summaryE
  simp only [pyMean, e2, e3, Bool.false_eq_true, if_false, Bind.bind, Except.bind]
  cases hjd : ((results.filter fun r => r.operation == "decode").filter
      fun r => r.implementation == "J2KSwift").isEmpty with
  | true =>
      simp only [hjd, Bool.true_or, if_true]
      refine ⟨_, rfl, fun l hl => ?_, fun _ => by simp⟩
      simp only [List.mem_append, List.mem_cons, List.not_mem_nil, or_false] at hl
      rcases hl with ((h | h | h | h) | h) | h <;> exact ⟨_, h⟩
  | false =>
      have hjdmsg : Line.text decodeUnavailableMsg ∉
          (([] : List Line) : List Line) := by simp
      cases hod : ((results.filter fun r => r.operation == "decode").filter
          fun r => r.implementation == "OpenJPEG").isEmpty with
      | true =>
          simp only [hjd, hod, Bool.false_or, if_true, Bool.false_eq_true, if_false]
          refine ⟨_, rfl, fun l hl => ?_, fun habs => ?_⟩
          · simp only [List.mem_append, List.mem_cons, List.not_mem_nil, or_false] at hl
            rcases hl with ((h | h | h | h) | (h | h | h)) | h <;> exact ⟨_, h⟩
          · exact absurd habs (by simpa [List.isEmpty_eq_false] using hjd)
      | false =>
          have ejd : (((results.filter fun r => r.operation == "decode").filter
              fun r => r.implementation == "J2KSwift").map BenchmarkResult.average).isEmpty
              = false := by
            rw [List.isEmpty_eq_false]
            simpa [List.isEmpty_eq_false] using hjd
          have eod : (((results.filter fun r => r.operation == "decode").filter
              fun r => r.implementation == "OpenJPEG").map BenchmarkResult.average).isEmpty
              = false := by
            rw [List.isEmpty_eq_false]
            simpa [List.isEmpty_eq_false] using hod
          simp only [hjd, hod, Bool.false_or, Bool.false_eq_true, if_false,
            pyMean, ejd, eod, Bind.bind, Except.bind]
          refine ⟨_, rfl, fun l hl => ?_, fun habs => ?_⟩
          · simp only [List.mem_append, List.mem_cons, List.not_mem_nil, or_false] at hl
            rcases hl with ((h | h | h | h) | (h | h | h)) | h <;> exact ⟨_, h⟩
          · exact absurd habs (by simpa [List.isEmpty_eq_false] using hjd)

theorem insertSorted_perm {α : Type} [LinearOrder α] (x : α) :
    ∀ l : List α, (insertSorted x l).Perm (x :: l)
  | [] => List.Perm.refl _
  | y :: ys => by
      unfold insertSorted
      split
      · exact List.Perm.refl _
      · exact ((insertSorted_perm x ys).cons y).trans (List.Perm.swap x y ys)

theorem pySorted_perm {α : Type} [LinearOrder α] : ∀ l : List α, (pySorted l).Perm l
  | [] => List.Perm.refl _
  | x :: l => by
      unfold pySorted
      simp only [List.foldr_cons]
      exact (insertSorted_perm x _).trans ((pySorted_perm l).cons x)

theorem pairwise_le_insertSorted {α : Type} [LinearOrder α] (x : α) :
    ∀ l : List α, l.Pairwise (· ≤ ·) → (insertSorted x l).Pairwise (· ≤ ·)
  | [], _ => by simp [insertSorted]
  | y :: ys, h => by
      rcases List.pairwise_cons.mp h with ⟨hy, hys⟩
      unfold insertSorted
      split
      · next hxy =>
          refine List.pairwise_cons.mpr ⟨?_, h⟩
          intro a ha
          rcases List.mem_cons.mp ha with rfl | ha
          · exact hxy
          · exact le_trans hxy (hy a ha)
      · next hxy =>
          have hyx : y ≤ x := le_of_not_le hxy
          refine List.pairwise_cons.mpr ⟨?_, pairwise_le_insertSorted x ys hys⟩
          intro a ha
          have ha' : a ∈ x :: ys := (insertSorted_perm x ys).mem_iff.mp ha
          rcases List.mem_cons.mp ha' with rfl | ha''
          · exact hyx
          · exact hy a ha''

theorem pairwise_le_pySorted {α : Type} [LinearOrder α] :
    ∀ l : List α, (pySorted l).Pairwise (· ≤ ·)
  | [] => by simp [pySorted]
  | x :: l => by
      unfold pySorted
      simp only [List.foldr_cons]
      exact pairwise_le_insertSorted x _ (pairwise_le_pySorted l)

theorem pySortedSet_nodup (l : List ℕ) : (pySortedSet l).Nodup :=
  ((pySorted_perm l.dedup).nodup_iff).mpr (List.nodup_dedup l)

theorem pySortedSet_pairwise_lt (l : List ℕ) : (pySortedSet l).Pairwise (· < ·) := by
  have h1 : (pySortedSet l).Pairwise (· ≤ ·) := pairwise_le_pySorted l.dedup
  have h2 : (pySortedSet l).Pairwise (· ≠ ·) := pySortedSet_nodup l
  exact (h1.and h2).imp (fun h => lt_of_le_of_ne h.1 h.2)

theorem mem_pySortedSet {a : ℕ} {l : List ℕ} : a ∈ pySortedSet l ↔ a ∈ l :=
  ((pySorted_perm l.dedup).mem_iff).trans List.mem_dedup

theorem filterMap_flatten {α β : Type} (f : α → Option β) :
    ∀ L : List (List α), L.flatten.filterMap f = (L.map (fun l => l.filterMap f)).flatten
  | [] => rfl
  | l :: L => by
      simp only [List.flatten_cons, List.filterMap_append, List.map_cons]
      rw [filterMap_flatten f L]

theorem pairwise_flatten_blocks {β : Type} (R : β → β → Prop) (key : β → ℕ)
    (f : ℕ → List β) :
    ∀ sizes : List ℕ, sizes.Pairwise (· < ·) →
      (∀ s ∈ sizes, ∀ b ∈ f s, key b = s) →
      (∀ s ∈ sizes, (f s).Pairwise R) →
      (∀ b b', key b < key b' → R b b') →
      ((sizes.map f).flatten).Pairwise R
  | [], _, _, _, _ => by simp
  | s :: rest, hsorted, hkey, hblock, hlt => by
      simp only [List.map_cons, List.flatten_cons]
      rcases List.pairwise_cons.mp hsorted with ⟨hs, hrest⟩
      rw [List.pairwise_append]
      refine ⟨hblock s (List.mem_cons_self s rest),
        pairwise_flatten_blocks R key f rest hrest
          (fun t ht => hkey t (List.mem_cons_of_mem s ht))
          (fun t ht => hblock t (List.mem_cons_of_mem s ht)) hlt, ?_⟩
      intro a ha b hb
      obtain ⟨lb, hlb, hbl⟩ := List.mem_flatten.mp hb
      obtain ⟨t, ht, rfl⟩ := List.mem_map.mp hlb
      have hka : key a = s := hkey s (List.mem_cons_self s rest) a ha
      have hkb : key b = t := hkey t (List.mem_cons_of_mem s ht) b hbl
      exact hlt a b (by rw [hka, hkb]; exact hs t ht)

theorem append_percent_ne_empty (s : String) : s ++ "%" ≠ "" := by
  intro h
  have hlen := congrArg String.length h
  simp [String.length_append] at hlen
  exact absurd hlen.2 (by decide)

theorem relativeCellPure_ne_empty (o : Option BenchmarkResult) (j : BenchmarkResult) :
    relativeCellPure o j ≠ "" := by
  cases o with
  | none => exact show ("N/A" : String) ≠ "" by decide
  | some o =>
      exact show formatFixed 1 (o.average / j.average * 100) ++ "%" ≠ "" from
        append_percent_ne_empty _

theorem block_info_gen (op : String) (s : ℕ) (jopt oopt : Option BenchmarkResult)
    (jcells ocells : BenchmarkResult → List String) (jrel : BenchmarkResult → String)
    (hjrel : ∀ j, jrel j ≠ "") (L : List Line)
    (hL : L = (match jopt with
               | some j => [Line.row op s "J2KSwift" (jcells j) (jrel j)]
               | none => []) ++
              (match oopt with
               | some o => [Line.row op s "OpenJPEG" (ocells o) "100.0%"]
               | none => [])) :
    ((L.filterMap Line.rowInfo).Pairwise rowOrder) ∧
    (∀ x ∈ L.filterMap Line.rowInfo, x.op = op ∧ x.size = s ∧ x.rel ≠ "") := by
  subst hL
  have h100 : ("100.0%" : String) ≠ "" := by decide
  cases jopt with
  | none =>
      cases oopt with
      | none => exact ⟨by simp, by simp⟩
      | some o =>
          refine ⟨by simp [Line.rowInfo], ?_⟩
          intro x hx
          simp only [List.nil_append, List.filterMap_cons, Line.rowInfo, List.filterMap_nil,
            List.mem_cons, List.not_mem_nil, or_false] at hx
          subst hx
          exact ⟨rfl, rfl, h100⟩
  | some j =>
      cases oopt with
      | none =>
          refine ⟨by simp [Line.rowInfo], ?_⟩
          intro x hx
          simp only [List.append_nil, List.filterMap_cons, Line.rowInfo, List.filterMap_nil,
            List.mem_cons, List.not_mem_nil, or_false] at hx
          subst hx
          exact ⟨rfl, rfl, hjrel j⟩
      | some o =>
          refine ⟨?_, ?_⟩
          · simp only [List.cons_append, List.nil_append, List.filterMap_cons, Line.rowInfo,
              List.filterMap_nil]
            refine List.pairwise_cons.mpr ⟨fun b hb => ?_, List.pairwise_singleton _ _⟩
            rcases List.mem_cons.mp hb with rfl | hb
            · exact Or.inr ⟨rfl, rfl, rfl⟩
            · exact absurd hb (List.not_mem_nil b)
          · intro x hx
            simp only [List.cons_append, List.nil_append, List.filterMap_cons, Line.rowInfo,
              List.filterMap_nil, List.mem_cons, List.not_mem_nil, or_false] at hx
            rcases hx with rfl | rfl
            · exact ⟨rfl, rfl, hjrel j⟩
            · exact ⟨rfl, rfl, h100⟩

theorem encodeRowsPure_info (er : List BenchmarkResult) (s : ℕ) :
    ((encodeRowsPure er s).filterMap Line.rowInfo).Pairwise rowOrder ∧
    (∀ x ∈ (encodeRowsPure er s).filterMap Line.rowInfo,
      x.op = "encode" ∧ x.size = s ∧ x.rel ≠ "") :=
  block_info_gen "encode" s
    ((er.filter (fun r : BenchmarkResult => r.image_size == s)).find? (fun r => r.implementation == "J2KSwift"))
    ((er.filter (fun r : BenchmarkResult => r.image_size == s)).find? (fun r => r.implementation == "OpenJPEG"))
    (fun j => statCells j ++ [sizeKbCell j]) (fun o => statCells o ++ [sizeKbCell o])
    (fun j => relativeCellPure
      ((er.filter (fun r : BenchmarkResult => r.image_size == s)).find?
        (fun r => r.implementation == "OpenJPEG")) j)
    (fun j => relativeCellPure_ne_empty _ j) (encodeRowsPure er s) rfl

theorem decodeRowsPure_info (dr : List BenchmarkResult) (s : ℕ) :
    ((decodeRowsPure dr s).filterMap Line.rowInfo).Pairwise rowOrder ∧
    (∀ x ∈ (decodeRowsPure dr s).filterMap Line.rowInfo,
      x.op = "decode" ∧ x.size = s ∧ x.rel ≠ "") :=
  block_info_gen "decode" s
    ((dr.filter (fun r : BenchmarkResult => r.image_size == s)).find? (fun r => r.implementation == "J2KSwift"))
    ((dr.filter (fun r : BenchmarkResult => r.image_size == s)).find? (fun r => r.implementation == "OpenJPEG"))
    (fun j => statCells j) (fun o => statCells o)
    (fun j => relativeCellPure
      ((dr.filter (fun r : BenchmarkResult => r.image_size == s)).find?
        (fun r => r.implementation == "OpenJPEG")) j)
    (fun j => relativeCellPure_ne_empty _ j) (decodeRowsPure dr s) rfl

theorem generate_markdown_report_ok (ts : String) (results : List BenchmarkResult)
    (h1 : ∀ r ∈ results, r.implementation = "J2KSwift" → r.average ≠ 0)
    (h2 : (results.filter (fun r => r.operation == "encode")).filter
        (fun r => r.implementation == "J2KSwift") ≠ [])
    (h3 : (results.filter (fun r => r.operation == "encode")).filter
        (fun r => r.implementation == "OpenJPEG") ≠ []) :
    ∃ summaryLines,
      generate_markdown_report ts results = .ok
        (mdHeader ts ++ encTableHeader ++
          ((pySortedSet ((results.filter (fun r => r.operation == "encode")).map
              BenchmarkResult.image_size)).map
            (encodeRowsPure (results.filter (fun r => r.operation == "encode")))).flatten ++
          [Line.text ""] ++ decTableHeader ++
          ((pySortedSet ((results.filter (fun r => r.operation == "encode")).map
              BenchmarkResult.image_size)).map
            (decodeRowsPure (results.filter (fun r => r.operation == "decode")))).flatten ++
          [Line.text ""] ++ [Line.text "## Summary", Line.text ""] ++ summaryLines) ∧
      (∀ l ∈ summaryLines, ∃ str, l = Line.text str) ∧
      ((results.filter (fun r => r.operation == "decode")).filter
          (fun r => r.implementation == "J2KSwift") = [] →
        Line.text decodeUnavailableMsg ∈ summaryLines) := by
  obtain ⟨sl, hsl, hall, hmsg⟩ := summaryE_ok results h2 h3
  have henc : exceptMapM
      (encodeRowsFor (results.filter (fun r => r.operation == "encode")))
      (pySortedSet ((results.filter (fun r => r.operation == "encode")).map
        BenchmarkResult.image_size)) =
      .ok ((pySortedSet ((results.filter (fun r => r.operation == "encode")).map
        BenchmarkResult.image_size)).map
          (encodeRowsPure (results.filter (fun r => r.operation == "encode")))) := by
    apply exceptMapM_ok
    intro s _
    apply encodeRowsFor_ok
    intro r hr himpl
    exact h1 r (List.mem_filter.mp hr).1 himpl
  have hdec : exceptMapM
      (decodeRowsFor (results.filter (fun r => r.operation == "decode")))
      (pySortedSet ((results.filter (fun r => r.operation == "encode")).map
        BenchmarkResult.image_size)) =
      .ok ((pySortedSet ((results.filter (fun r => r.operation == "encode")).map
        BenchmarkResult.image_size)).map
          (decodeRowsPure (results.filter (fun r => r.operation == "decode")))) := by
    apply exceptMapM_ok
    intro s _
    apply decodeRowsFor_ok
    intro r hr himpl
    exact h1 r (List.mem_filter.mp hr).1 himpl
  refine ⟨sl, ?_, hall, hmsg⟩
  unfold generate_markdown_report
  simp only [henc, hdec, hsl, Bind.bind, Except.bind]

/-- Claim C9: for every result set (under the hypotheses that make the report
well-defined: every candidate result has a positive average, and both
implementations have at least one encode result, as the orchestration
guarantees), the markdown report's data rows consist of the full encode table
followed by the full decode table; within each table rows are ordered by
ascending image size with the candidate (J2KSwift) row before the reference
(OpenJPEG) row at each size, and every data row carries a non-empty
relative-speed cell. -/
theorem C9_markdown_table_layout (ts : String) (results : List BenchmarkResult)
    (h1 : ∀ r ∈ results, r.implementation = "J2KSwift" → 0 < r.average)
    (h2 : ∃ r ∈ results, r.operation = "encode" ∧ r.implementation = "J2KSwift")
    (h3 : ∃ r ∈ results, r.operation = "encode" ∧ r.implementation = "OpenJPEG") :
    ∃ lines encRows decRows,
      generate_markdown_report ts results = .ok lines ∧
      lines.filterMap Line.rowInfo = encRows ++ decRows ∧
      (∀ x ∈ encRows, x.op = "encode") ∧ (∀ x ∈ decRows, x.op = "decode") ∧
      encRows.Pairwise rowOrder ∧ decRows.Pairwise rowOrder ∧
      (∀ x ∈ encRows, x.rel ≠ "") ∧ (∀ x ∈ decRows, x.rel ≠ "") := by
  have h1' : ∀ r ∈ results, r.implementation = "J2KSwift" → r.average ≠ 0 :=
    fun r hr h => ne_of_gt (h1 r hr h)
  have h2' : (results.filter (fun r => r.operation == "encode")).filter
      (fun r => r.implementation == "J2KSwift") ≠ [] := by
    obtain ⟨r, hr, hop, himp⟩ := h2
    exact List.ne_nil_of_mem (List.mem_filter.mpr
      ⟨List.mem_filter.mpr ⟨hr, by simp [hop]⟩, by simp [himp]⟩)
  have h3' : (results.filter (fun r => r.operation == "encode")).filter
      (fun r => r.implementation == "OpenJPEG") ≠ [] := by
    obtain ⟨r, hr, hop, himp⟩ := h3
    exact List.ne_nil_of_mem (List.mem_filter.mpr
      ⟨List.mem_filter.mpr ⟨hr, by simp [hop]⟩, by simp [himp]⟩)
  obtain ⟨sl, hgen, hall, _⟩ := generate_markdown_report_ok ts results h1' h2' h3'
  set er := results.filter (fun r => r.operation == "encode") with her
  set dr := results.filter (fun r => r.operation == "decode") with hdr
  set sizes := pySortedSet (er.map BenchmarkResult.image_size) with hsizes
  have hhd : (mdHeader ts).filterMap Line.rowInfo = [] := rfl
  have hth : encTableHeader.filterMap Line.rowInfo = [] := rfl
  have hdh : decTableHeader.filterMap Line.rowInfo = [] := rfl
  have hblank : ([Line.text ""] : List Line).filterMap Line.rowInfo = [] := rfl
  have hsum2 : ([Line.text "## Summary", Line.text ""] : List Line).filterMap
      Line.rowInfo = [] := rfl
  have hsl0 : sl.filterMap Line.rowInfo = [] := by
    rw [List.filterMap_eq_nil]
    intro l hl
    obtain ⟨str, rfl⟩ := hall l hl
    rfl
  refine ⟨_, ((sizes.map (encodeRowsPure er)).flatten).filterMap Line.rowInfo,
    ((sizes.map (decodeRowsPure dr)).flatten).filterMap Line.rowInfo, hgen, ?_, ?_, ?_, ?_, ?_, ?_, ?_⟩
  · simp only [List.filterMap_append, hhd, hth, hdh, hblank, hsum2, hsl0,
      List.nil_append, List.append_nil]
  · intro x hx
    rw [filterMap_flatten, List.map_map] at hx
    obtain ⟨lb, hlb, hxl⟩ := List.mem_flatten.mp hx
    obtain ⟨s, _, rfl⟩ := List.mem_map.mp hlb
    exact ((encodeRowsPure_info er s).2 x hxl).1
  · intro x hx
    rw [filterMap_flatten, List.map_map] at hx
    obtain ⟨lb, hlb, hxl⟩ := List.mem_flatten.mp hx
    obtain ⟨s, _, rfl⟩ := List.mem_map.mp hlb
    exact ((decodeRowsPure_info dr s).2 x hxl).1
  · rw [filterMap_flatten, List.map_map]
    exact pairwise_flatten_blocks rowOrder RowInfo.size _ sizes
      (pySortedSet_pairwise_lt _)
      (fun s _ b hb => ((encodeRowsPure_info er s).2 b hb).2.1)
      (fun s _ => (encodeRowsPure_info er s).1)
      (fun b b' h => Or.inl h)
  · rw [filterMap_flatten, List.map_map]
    exact pairwise_flatten_blocks rowOrder RowInfo.size _ sizes
      (pySortedSet_pairwise_lt _)
      (fun s _ b hb => ((decodeRowsPure_info dr s).2 b hb).2.1)
      (fun s _ => (decodeRowsPure_info dr s).1)
      (fun b b' h => Or.inl h)
  · intro x hx
    rw [filterMap_flatten, List.map_map] at hx
    obtain ⟨lb, hlb, hxl⟩ := List.mem_flatten.mp hx
    obtain ⟨s, _, rfl⟩ := List.mem_map.mp hlb
    exact ((encodeRowsPure_info er s).2 x hxl).2.2
  · intro x hx
    rw [filterMap_flatten, List.map_map] at hx
    obtain ⟨lb, hlb, hxl⟩ := List.mem_flatten.mp hx
    obtain ⟨s, _, rfl⟩ := List.mem_map.mp hlb
    exact ((decodeRowsPure_info dr s).2 x hxl).2.2

/-- Witness for C9 at a two-result set (one candidate, one reference encode
measurement at size 256). -/
theorem C9_markdown_table_layout_witness :
    (∀ r ∈ [mkResult "J2KSwift" 256 "encode" [1], mkResult "OpenJPEG" 256 "encode" [2]],
      r.implementation = "J2KSwift" → 0 < r.average) ∧
    (∃ r ∈ [mkResult "J2KSwift" 256 "encode" [1], mkResult "OpenJPEG" 256 "encode" [2]],
      r.operation = "encode" ∧ r.implementation = "J2KSwift") ∧
    (∃ r ∈ [mkResult "J2KSwift" 256 "encode" [1], mkResult "OpenJPEG" 256 "encode" [2]],
      r.operation = "encode" ∧ r.implementation = "OpenJPEG") ∧
    (∃ lines encRows decRows,
      generate_markdown_report "t"
          [mkResult "J2KSwift" 256 "encode" [1], mkResult "OpenJPEG" 256 "encode" [2]] =
        .ok lines ∧
      lines.filterMap Line.rowInfo = encRows ++ decRows ∧
      (∀ x ∈ encRows, x.op = "encode") ∧ (∀ x ∈ decRows, x.op = "decode") ∧
      encRows.Pairwise rowOrder ∧ decRows.Pairwise rowOrder ∧
      (∀ x ∈ encRows, x.rel ≠ "") ∧ (∀ x ∈ decRows, x.rel ≠ "")) := by
  have p1 : ∀ r ∈ [mkResult "J2KSwift" 256 "encode" [1], mkResult "OpenJPEG" 256 "encode" [2]],
      r.implementation = "J2KSwift" → 0 < r.average := by
    intro r hr himpl
    rcases List.mem_cons.mp hr with rfl | hr
    · norm_num [mkResult, BenchmarkResult.average]
    · rcases List.mem_cons.mp hr with rfl | hr
      · exact absurd himpl (by decide)
      · exact absurd hr (List.not_mem_nil r)
  have p2 : ∃ r ∈ [mkResult "J2KSwift" 256 "encode" [1], mkResult "OpenJPEG" 256 "encode" [2]],
      r.operation = "encode" ∧ r.implementation = "J2KSwift" :=
    ⟨mkResult "J2KSwift" 256 "encode" [1], List.mem_cons_self _ _, rfl, rfl⟩
  have p3 : ∃ r ∈ [mkResult "J2KSwift" 256 "encode" [1], mkResult "OpenJPEG" 256 "encode" [2]],
      r.operation = "encode" ∧ r.implementation = "OpenJPEG" :=
    ⟨mkResult "OpenJPEG" 256 "encode" [2],
      List.mem_cons_of_mem _ (List.mem_cons_self _ _), rfl, rfl⟩
  exact ⟨p1, p2, p3, C9_markdown_table_layout "t" _ p1 p2 p3⟩

theorem block_mem_j2k (op : String) (s : ℕ) (jopt oopt : Option BenchmarkResult)
    (jcells ocells : BenchmarkResult → List String) (jrel : BenchmarkResult → String)
    (L : List Line)
    (hL : L = (match jopt with
               | some j => [Line.row op s "J2KSwift" (jcells j) (jrel j)]
               | none => []) ++
              (match oopt with
               | some o => [Line.row op s "OpenJPEG" (ocells o) "100.0%"]
               | none => []))
    (j : BenchmarkResult) (hj : jopt = some j) :
    Line.row op s "J2KSwift" (jcells j) (jrel j) ∈ L := by
  subst hL
  subst hj
  simp

theorem block_mem_shape (op : String) (s : ℕ) (jopt oopt : Option BenchmarkResult)
    (jcells ocells : BenchmarkResult → List String) (jrel : BenchmarkResult → String)
    (L : List Line)
    (hL : L = (match jopt with
               | some j => [Line.row op s "J2KSwift" (jcells j) (jrel j)]
               | none => []) ++
              (match oopt with
               | some o => [Line.row op s "OpenJPEG" (ocells o) "100.0%"]
               | none => [])) :
    ∀ l ∈ L, (∃ j, jopt = some j ∧ l = Line.row op s "J2KSwift" (jcells j) (jrel j)) ∨
      (∃ o, oopt = some o ∧ l = Line.row op s "OpenJPEG" (ocells o) "100.0%") := by
  subst hL
  intro l hl
  rcases List.mem_append.mp hl with h | h
  · cases jopt with
    | none => exact absurd h (List.not_mem_nil l)
    | some j =>
        rcases List.mem_cons.mp h with rfl | h
        · exact Or.inl ⟨j, rfl, rfl⟩
        · exact absurd h (List.not_mem_nil l)
  · cases oopt with
    | none => exact absurd h (List.not_mem_nil l)
    | some o =>
        rcases List.mem_cons.mp h with rfl | h
        · exact Or.inr ⟨o, rfl, rfl⟩
        · exact absurd h (List.not_mem_nil l)

theorem encodeRowsPure_shape (er : List BenchmarkResult) (s : ℕ) :
    ∀ l ∈ encodeRowsPure er s,
      (∃ j, (er.filter (fun r => r.image_size == s)).find?
          (fun r => r.implementation == "J2KSwift") = some j ∧
        l = Line.row "encode" s "J2KSwift" (statCells j ++ [sizeKbCell j])
          (relativeCellPure ((er.filter (fun r : BenchmarkResult => r.image_size == s)).find?
            (fun r => r.implementation == "OpenJPEG")) j)) ∨
      (∃ o, (er.filter (fun r => r.image_size == s)).find?
          (fun r => r.implementation == "OpenJPEG") = some o ∧
        l = Line.row "encode" s "OpenJPEG" (statCells o ++ [sizeKbCell o]) "100.0%") :=
  block_mem_shape "encode" s
    ((er.filter (fun r : BenchmarkResult => r.image_size == s)).find?
      (fun r => r.implementation == "J2KSwift"))
    ((er.filter (fun r : BenchmarkResult => r.image_size == s)).find?
      (fun r => r.implementation == "OpenJPEG"))
    (fun j => statCells j ++ [sizeKbCell j]) (fun o => statCells o ++ [sizeKbCell o])
    (fun j => relativeCellPure
      ((er.filter (fun r : BenchmarkResult => r.image_size == s)).find?
        (fun r => r.implementation == "OpenJPEG")) j)
    (encodeRowsPure er s) rfl

theorem decodeRowsPure_shape (dr : List BenchmarkResult) (s : ℕ) :
    ∀ l ∈ decodeRowsPure dr s,
      (∃ j, (dr.filter (fun r => r.image_size == s)).find?
          (fun r => r.implementation == "J2KSwift") = some j ∧
        l = Line.row "decode" s "J2KSwift" (statCells j)
          (relativeCellPure ((dr.filter (fun r : BenchmarkResult => r.image_size == s)).find?
            (fun r => r.implementation == "OpenJPEG")) j)) ∨
      (∃ o, (dr.filter (fun r => r.image_size == s)).find?
          (fun r => r.implementation == "OpenJPEG") = some o ∧
        l = Line.row "decode" s "OpenJPEG" (statCells o) "100.0%") :=
  block_mem_shape "decode" s
    ((dr.filter (fun r : BenchmarkResult => r.image_size == s)).find?
      (fun r => r.implementation == "J2KSwift"))
    ((dr.filter (fun r : BenchmarkResult => r.image_size == s)).find?
      (fun r => r.implementation == "OpenJPEG"))
    (fun j => statCells j) (fun o => statCells o)
    (fun j => relativeCellPure
      ((dr.filter (fun r : BenchmarkResult => r.image_size == s)).find?
        (fun r => r.implementation == "OpenJPEG")) j)
    (decodeRowsPure dr s) rfl

theorem encodeRowsPure_mem_j2k (er : List BenchmarkResult) (s : ℕ) (j : BenchmarkResult)
    (hj : (er.filter (fun r : BenchmarkResult => r.image_size == s)).find?
      (fun r => r.implementation == "J2KSwift") = some j) :
    Line.row "encode" s "J2KSwift" (statCells j ++ [sizeKbCell j])
      (relativeCellPure ((er.filter (fun r : BenchmarkResult => r.image_size == s)).find?
        (fun r => r.implementation == "OpenJPEG")) j) ∈ encodeRowsPure er s :=
  block_mem_j2k "encode" s
    ((er.filter (fun r : BenchmarkResult => r.image_size == s)).find?
      (fun r => r.implementation == "J2KSwift"))
    ((er.filter (fun r : BenchmarkResult => r.image_size == s)).find?
      (fun r => r.implementation == "OpenJPEG"))
    (fun x => statCells x ++ [sizeKbCell x]) (fun o => statCells o ++ [sizeKbCell o])
    (fun x => relativeCellPure
      ((er.filter (fun r : BenchmarkResult => r.image_size == s)).find?
        (fun r => r.implementation == "OpenJPEG")) x)
    (encodeRowsPure er s) rfl j hj

/-- Claim C5: when the candidate benchmark succeeds but its structured result
document lacks a decode section, the adapter returns an absent decode result
(`none`, not an empty or zeroed record) and the encode result is built
normally; and for a result set containing no candidate decode results (and
whose report is well-defined: positive candidate averages and at least one
encode result per implementation, as after a successful run), the rendered
markdown still contains a candidate encode row for each candidate encode
result, contains no candidate decode row at all (decode is not rendered as
zero), and contains the explicit decode-unavailable narrative line. -/
theorem C5_absent_decode_first_class :
    (∀ d : BenchData, d.decode_runs = none →
      (run_j2kswift_parse d).2 = none ∧
      (run_j2kswift_parse d).1.implementation = "J2KSwift" ∧
      (run_j2kswift_parse d).1.operation = "encode" ∧
      (run_j2kswift_parse d).1.image_size = d.width ∧
      (run_j2kswift_parse d).1.times = d.encode_runs.map (fun t => t / 1000)) ∧
    (∀ (ts : String) (results : List BenchmarkResult),
      (∀ r ∈ results, r.implementation = "J2KSwift" → 0 < r.average) →
      (∃ r ∈ results, r.operation = "encode" ∧ r.implementation = "J2KSwift") →
      (∃ r ∈ results, r.operation = "encode" ∧ r.implementation = "OpenJPEG") →
      (∀ r ∈ results, r.implementation = "J2KSwift" → r.operation ≠ "decode") →
      ∃ lines, generate_markdown_report ts results = .ok lines ∧
        (∀ r ∈ results, r.operation = "encode" → r.implementation = "J2KSwift" →
          ∃ cells rel, Line.row "encode" r.image_size "J2KSwift" cells rel ∈ lines) ∧
        (∀ (size : ℕ) (cells : List String) (rel : String),
          Line.row "decode" size "J2KSwift" cells rel ∉ lines) ∧
        Line.text decodeUnavailableMsg ∈ lines) := by
  constructor
  · intro d hd
    refine ⟨?_, rfl, rfl, rfl, rfl⟩
    simp [run_j2kswift_parse, hd]
  · intro ts results h1 h2 h3 h4
    have h1' : ∀ r ∈ results, r.implementation = "J2KSwift" → r.average ≠ 0 :=
      fun r hr h => ne_of_gt (h1 r hr h)
    have h2' : (results.filter (fun r => r.operation == "encode")).filter
        (fun r => r.implementation == "J2KSwift") ≠ [] := by
      obtain ⟨r, hr, hop, himp⟩ := h2
      exact List.ne_nil_of_mem (List.mem_filter.mpr
        ⟨List.mem_filter.mpr ⟨hr, by simp [hop]⟩, by simp [himp]⟩)
    have h3' : (results.filter (fun r => r.operation == "encode")).filter
        (fun r => r.implementation == "OpenJPEG") ≠ [] := by
      obtain ⟨r, hr, hop, himp⟩ := h3
      exact List.ne_nil_of_mem (List.mem_filter.mpr
        ⟨List.mem_filter.mpr ⟨hr, by simp [hop]⟩, by simp [himp]⟩)
    have hdrnil : (results.filter (fun r => r.operation == "decode")).filter
        (fun r => r.implementation == "J2KSwift") = [] := by
      rw [List.filter_eq_nil]
      intro a ha
      have hmem := List.mem_filter.mp ha
      have hop : a.operation = "decode" := by simpa using hmem.2
      intro himpl
      exact absurd hop (h4 a hmem.1 (by simpa using himpl))
    obtain ⟨sl, hgen, hall, hmsg⟩ := generate_markdown_report_ok ts results h1' h2' h3'
    set er := results.filter (fun r => r.operation == "encode") with her
    set dr := results.filter (fun r => r.operation == "decode") with hdr'
    set sizes := pySortedSet (er.map BenchmarkResult.image_size) with hsizes
    have hnone : ∀ s : ℕ, (dr.filter (fun x : BenchmarkResult => x.image_size == s)).find?
        (fun x => x.implementation == "J2KSwift") = none := by
      intro s
      rw [List.find?_eq_none]
      intro x hx
      have hxdr : x ∈ dr := (List.mem_filter.mp hx).1
      exact List.filter_eq_nil.mp hdrnil x hxdr
    refine ⟨_, hgen, ?_, ?_, ?_⟩
    · intro r hr hop himpl
      have hrer : r ∈ er := List.mem_filter.mpr ⟨hr, by simp [hop]⟩
      have hsz : r.image_size ∈ sizes := by
        rw [hsizes]
        exact mem_pySortedSet.mpr (List.mem_map_of_mem _ hrer)
      have hfind : ((er.filter (fun x : BenchmarkResult =>
          x.image_size == r.image_size)).find?
          (fun x => x.implementation == "J2KSwift")).isSome = true := by
        rw [List.find?_isSome]
        exact ⟨r, List.mem_filter.mpr ⟨hrer, by simp⟩, by simp [himpl]⟩
      obtain ⟨j, hj⟩ := Option.isSome_iff_exists.mp hfind
      refine ⟨statCells j ++ [sizeKbCell j],
        relativeCellPure ((er.filter (fun x : BenchmarkResult =>
          x.image_size == r.image_size)).find? (fun x => x.implementation == "OpenJPEG")) j, ?_⟩
      have hrow := encodeRowsPure_mem_j2k er r.image_size j hj
      have hflat : Line.row "encode" r.image_size "J2KSwift" (statCells j ++ [sizeKbCell j])
          (relativeCellPure ((er.filter (fun x : BenchmarkResult =>
            x.image_size == r.image_size)).find? (fun x => x.implementation == "OpenJPEG")) j) ∈
          (sizes.map (encodeRowsPure er)).flatten :=
        List.mem_flatten.mpr ⟨encodeRowsPure er r.image_size,
          List.mem_map_of_mem _ hsz, hrow⟩
      simp only [List.mem_append]
      tauto
    · intro size cells rel habs
      simp only [List.mem_append] at habs
      rcases habs with ((((((((h | h) | h) | h) | h) | h) | h) | h) | h)
      · simp [mdHeader] at h
      · simp [encTableHeader] at h
      · obtain ⟨block, hb, hlb⟩ := List.mem_flatten.mp h
        obtain ⟨s, _, rfl⟩ := List.mem_map.mp hb
        rcases encodeRowsPure_shape er s _ hlb with ⟨j, _, heq⟩ | ⟨o, _, heq⟩ <;> simp at heq
      · simp at h
      · simp [decTableHeader] at h
      · obtain ⟨block, hb, hlb⟩ := List.mem_flatten.mp h
        obtain ⟨s, _, rfl⟩ := List.mem_map.mp hb
        rcases decodeRowsPure_shape dr s _ hlb with ⟨j, hj, _⟩ | ⟨o, _, heq⟩
        · rw [hnone s] at hj
          exact Option.noConfusion hj
        · simp at heq
      · simp at h
      · simp at h
      · obtain ⟨str, heq⟩ := hall _ h
        simp at heq
    · have hm := hmsg hdrnil
      simp only [List.mem_append]
      tauto

/-- Witness for C5: a documentless-decode parse at a concrete document and a
concrete decode-free result set. -/
theorem C5_absent_decode_first_class_witness :
    ((⟨256, [1], none, none⟩ : BenchData).decode_runs = none ∧
      (run_j2kswift_parse ⟨256, [1], none, none⟩).2 = none) ∧
    ((∀ r ∈ [mkResult "J2KSwift" 128 "encode" [1], mkResult "OpenJPEG" 128 "encode" [2]],
        r.implementation = "J2KSwift" → 0 < r.average) ∧
      (∀ r ∈ [mkResult "J2KSwift" 128 "encode" [1], mkResult "OpenJPEG" 128 "encode" [2]],
        r.implementation = "J2KSwift" → r.operation ≠ "decode") ∧
      ∃ lines, generate_markdown_report "t"
          [mkResult "J2KSwift" 128 "encode" [1], mkResult "OpenJPEG" 128 "encode" [2]] =
          .ok lines ∧
        (∀ r ∈ [mkResult "J2KSwift" 128 "encode" [1], mkResult "OpenJPEG" 128 "encode" [2]],
          r.operation = "encode" → r.implementation = "J2KSwift" →
          ∃ cells rel, Line.row "encode" r.image_size "J2KSwift" cells rel ∈ lines) ∧
        (∀ (size : ℕ) (cells : List String) (rel : String),
          Line.row "decode" size "J2KSwift" cells rel ∉ lines) ∧
        Line.text decodeUnavailableMsg ∈ lines) := by
  have p1 : ∀ r ∈ [mkResult "J2KSwift" 128 "encode" [1], mkResult "OpenJPEG" 128 "encode" [2]],
      r.implementation = "J2KSwift" → 0 < r.average := by
    intro r hr himpl
    rcases List.mem_cons.mp hr with rfl | hr
    · norm_num [mkResult, BenchmarkResult.average]
    · rcases List.mem_cons.mp hr with rfl | hr
      · exact absurd himpl (by decide)
      · exact absurd hr (List.not_mem_nil r)
  have p2 : ∃ r ∈ [mkResult "J2KSwift" 128 "encode" [1], mkResult "OpenJPEG" 128 "encode" [2]],
      r.operation = "encode" ∧ r.implementation = "J2KSwift" :=
    ⟨mkResult "J2KSwift" 128 "encode" [1], List.mem_cons_self _ _, rfl, rfl⟩
  have p3 : ∃ r ∈ [mkResult "J2KSwift" 128 "encode" [1], mkResult "OpenJPEG" 128 "encode" [2]],
      r.operation = "encode" ∧ r.implementation = "OpenJPEG" :=
    ⟨mkResult "OpenJPEG" 128 "encode" [2],
      List.mem_cons_of_mem _ (List.mem_cons_self _ _), rfl, rfl⟩
  have p4 : ∀ r ∈ [mkResult "J2KSwift" 128 "encode" [1], mkResult "OpenJPEG" 128 "encode" [2]],
      r.implementation = "J2KSwift" → r.operation ≠ "decode" := by
    intro r hr _
    rcases List.mem_cons.mp hr with rfl | hr
    · exact by decide
    · rcases List.mem_cons.mp hr with rfl | hr
      · exact by decide
      · exact absurd hr (List.not_mem_nil r)
  exact ⟨⟨rfl, ((C5_absent_decode_first_class.1 ⟨256, [1], none, none⟩ rfl).1)⟩,
    p1, p4, C5_absent_decode_first_class.2 "t" _ p1 p2 p3 p4⟩

/-- Counterexample for claim C6: the relative-speed cell (line 171) divides
by the candidate average whenever the reference result exists, with no
`candidate.average > 0` guard.  With a candidate encode result whose timings
are empty (average 0) alongside a reference result, the claimed "computed
only when candidate.average > 0 … never divides by zero" fails: the report
generation raises ZeroDivisionError. -/
theorem C6_relative_speed_counterexample :
    (mkResult "J2KSwift" 256 "encode" []).average = 0 ∧
    relativeCellE (some (mkResult "OpenJPEG" 256 "encode" [1/10]))
      (mkResult "J2KSwift" 256 "encode" []) =
      .error "ZeroDivisionError: float division by zero" ∧
    generate_markdown_report "t"
      [mkResult "J2KSwift" 256 "encode" [], mkResult "OpenJPEG" 256 "encode" [1/10]] =
      .error "ZeroDivisionError: float division by zero" := by
  exact ⟨rfl, rfl, rfl⟩

/-- Claim C6 as amended: when the reference result is absent the
relative-speed cell is the literal `N/A`; when both results exist the cell is
computed as `reference.average / candidate.average * 100` regardless of the
sign of the candidate average — the division is unguarded, so a candidate
average of zero raises ZeroDivisionError instead of being skipped. -/
theorem C6_relative_speed_amended (o j : BenchmarkResult) :
    relativeCellE none j = .ok "N/A" ∧
    (j.average ≠ 0 → relativeCellE (some o) j =
      .ok (formatFixed 1 (o.average / j.average * 100) ++ "%")) ∧
    (j.average = 0 → relativeCellE (some o) j =
      .error "ZeroDivisionError: float division by zero") := by
  refine ⟨rfl, fun h => ?_, fun h => ?_⟩
  · simp [relativeCellE, pyDiv, h, Bind.bind, Except.bind]
  · simp [relativeCellE, pyDiv, h, Bind.bind, Except.bind]

/-- Witness for the amended C6 at a positive-average candidate and an
empty-timings candidate. -/
theorem C6_relative_speed_amended_witness :
    ((mkResult "J2KSwift" 256 "encode" [1]).average ≠ 0 ∧
      relativeCellE (some (mkResult "OpenJPEG" 256 "encode" [2]))
        (mkResult "J2KSwift" 256 "encode" [1]) =
        .ok (formatFixed 1 ((mkResult "OpenJPEG" 256 "encode" [2]).average /
          (mkResult "J2KSwift" 256 "encode" [1]).average * 100) ++ "%")) ∧
    ((mkResult "J2KSwift" 256 "encode" []).average = 0 ∧
      relativeCellE (some (mkResult "OpenJPEG" 256 "encode" [2]))
        (mkResult "J2KSwift" 256 "encode" []) =
        .error "ZeroDivisionError: float division by zero") := by
  have h1 : (mkResult "J2KSwift" 256 "encode" [1]).average ≠ 0 := by
    norm_num [mkResult, BenchmarkResult.average]
  exact ⟨⟨h1, (C6_relative_speed_amended (mkResult "OpenJPEG" 256 "encode" [2])
      (mkResult "J2KSwift" 256 "encode" [1])).2.1 h1⟩,
    rfl, (C6_relative_speed_amended (mkResult "OpenJPEG" 256 "encode" [2])
      (mkResult "J2KSwift" 256 "encode" [])).2.2 rfl⟩

theorem collapse_operation (r : BenchmarkResult) :
    (collapseZeroSize r).operation = r.operation := by
  unfold collapseZeroSize
  split <;> rfl

theorem collapse_implementation (r : BenchmarkResult) :
    (collapseZeroSize r).implementation = r.implementation := by
  unfold collapseZeroSize
  split <;> rfl

theorem collapse_image_size (r : BenchmarkResult) :
    (collapseZeroSize r).image_size = r.image_size := by
  unfold collapseZeroSize
  split <;> rfl

theorem collapse_times (r : BenchmarkResult) :
    (collapseZeroSize r).times = r.times := by
  unfold collapseZeroSize
  split <;> rfl

theorem collapse_average (r : BenchmarkResult) :
    (collapseZeroSize r).average = r.average := by
  simp [BenchmarkResult.average, collapse_times r]

theorem collapse_statCells (r : BenchmarkResult) :
    statCells (collapseZeroSize r) = statCells r := by
  simp [statCells, BenchmarkResult.average, BenchmarkResult.median,
    BenchmarkResult.min_time, BenchmarkResult.max_time, BenchmarkResult.throughput,
    collapse_times r, collapse_image_size r]

theorem collapse_sizeKbCell (r : BenchmarkResult) :
    sizeKbCell (collapseZeroSize r) = sizeKbCell r := by
  unfold collapseZeroSize
  split
  · next h => simp [sizeKbCell, h]
  · rfl

theorem collapse_relativeCellE (oopt : Option BenchmarkResult) (j : BenchmarkResult) :
    relativeCellE (Option.map collapseZeroSize oopt) (collapseZeroSize j) =
      relativeCellE oopt j := by
  cases oopt with
  | none => rfl
  | some o => simp [relativeCellE, pyDiv, collapse_average]

theorem filter_map_collapse (p : BenchmarkResult → Bool)
    (hp : ∀ r, p (collapseZeroSize r) = p r) (l : List BenchmarkResult) :
    (l.map collapseZeroSize).filter p = (l.filter p).map collapseZeroSize := by
  have hcomp : (p ∘ collapseZeroSize) = p := funext hp
  rw [List.filter_map, hcomp]

theorem find?_map_collapse (p : BenchmarkResult → Bool)
    (hp : ∀ r, p (collapseZeroSize r) = p r) (l : List BenchmarkResult) :
    (l.map collapseZeroSize).find? p = Option.map collapseZeroSize (l.find? p) := by
  have hcomp : (p ∘ collapseZeroSize) = p := funext hp
  rw [List.find?_map, hcomp]

theorem map_average_collapse (l : List BenchmarkResult) :
    (l.map collapseZeroSize).map BenchmarkResult.average = l.map BenchmarkResult.average := by
  rw [List.map_map]
  exact List.map_congr_left (fun r _ => collapse_average r)

theorem blockE_congr (op : String) (size : ℕ) (jopt oopt jopt' oopt' : Option BenchmarkResult)
    (jcells jcells' ocells ocells' : BenchmarkResult → List String)
    (jrelE jrelE' : BenchmarkResult → Except String String)
    (E E' : Except String (List Line))
    (hE : E = (do
      let jRows ← match jopt with
        | some j => do
            let rel ← jrelE j
            Except.ok [Line.row op size "J2KSwift" (jcells j) rel]
        | none => Except.ok ([] : List Line)
      let oRows := match oopt with
        | some o => [Line.row op size "OpenJPEG" (ocells o) "100.0%"]
        | none => ([] : List Line)
      Except.ok (jRows ++ oRows)))
    (hE' : E' = (do
      let jRows ← match jopt' with
        | some j => do
            let rel ← jrelE' j
            Except.ok [Line.row op size "J2KSwift" (jcells' j) rel]
        | none => Except.ok ([] : List Line)
      let oRows := match oopt' with
        | some o => [Line.row op size "OpenJPEG" (ocells' o) "100.0%"]
        | none => ([] : List Line)
      Except.ok (jRows ++ oRows)))
    (hj : jopt' = Option.map collapseZeroSize jopt)
    (ho : oopt' = Option.map collapseZeroSize oopt)
    (hjc : ∀ j, jcells' (collapseZeroSize j) = jcells j)
    (hoc : ∀ o, ocells' (collapseZeroSize o) = ocells o)
    (hjr : ∀ j, jrelE' (collapseZeroSize j) = jrelE j) :
    E' = E := by
  subst hE hE' hj ho
  cases jopt with
  | none =>
      cases oopt with
      | none => rfl
      | some o => simp [Option.map, Bind.bind, Except.bind, hoc o]
  | some j =>
      cases oopt with
      | none =>
          simp only [Option.map, Bind.bind, Except.bind, hjr j, hjc j]
      | some o =>
          simp only [Option.map, Bind.bind, Except.bind, hjr j, hjc j, hoc o]

theorem encodeRowsFor_collapse (er : List BenchmarkResult) (size : ℕ) :
    encodeRowsFor (er.map collapseZeroSize) size = encodeRowsFor er size := by
  have hpj : ∀ r : BenchmarkResult,
      ((fun x : BenchmarkResult => x.implementation == "J2KSwift") (collapseZeroSize r)) =
        (r.implementation == "J2KSwift") := fun r => by simp only [collapse_implementation]
  have hpo : ∀ r : BenchmarkResult,
      ((fun x : BenchmarkResult => x.implementation == "OpenJPEG") (collapseZeroSize r)) =
        (r.implementation == "OpenJPEG") := fun r => by simp only [collapse_implementation]
  have hps : ∀ r : BenchmarkResult,
      ((fun x : BenchmarkResult => x.image_size == size) (collapseZeroSize r)) =
        (r.image_size == size) := fun r => by simp only [collapse_image_size]
  have hfilter : (er.map collapseZeroSize).filter
      (fun x : BenchmarkResult => x.image_size == size) =
      (er.filter (fun x : BenchmarkResult => x.image_size == size)).map collapseZeroSize :=
    filter_map_collapse _ hps er
  refine blockE_congr "encode" size
    ((er.filter (fun x : BenchmarkResult => x.image_size == size)).find?
      (fun x => x.implementation == "J2KSwift"))
    ((er.filter (fun x : BenchmarkResult => x.image_size == size)).find?
      (fun x => x.implementation == "OpenJPEG"))
    (((er.map collapseZeroSize).filter (fun x : BenchmarkResult => x.image_size == size)).find?
      (fun x => x.implementation == "J2KSwift"))
    (((er.map collapseZeroSize).filter (fun x : BenchmarkResult => x.image_size == size)).find?
      (fun x => x.implementation == "OpenJPEG"))
    (fun x => statCells x ++ [sizeKbCell x]) (fun x => statCells x ++ [sizeKbCell x])
    (fun x => statCells x ++ [sizeKbCell x]) (fun x => statCells x ++ [sizeKbCell x])
    (fun x => relativeCellE
      ((er.filter (fun r : BenchmarkResult => r.image_size == size)).find?
        (fun r => r.implementation == "OpenJPEG")) x)
    (fun x => relativeCellE
      (((er.map collapseZeroSize).filter (fun r : BenchmarkResult => r.image_size == size)).find?
        (fun r => r.implementation == "OpenJPEG")) x)
    (encodeRowsFor er size) (encodeRowsFor (er.map collapseZeroSize) size)
    rfl rfl ?_ ?_ ?_ ?_ ?_
  · rw [hfilter, find?_map_collapse _ hpj]
  · rw [hfilter, find?_map_collapse _ hpo]
  · intro j
    simp only [collapse_statCells, collapse_sizeKbCell]
  · intro o
    simp only [collapse_statCells, collapse_sizeKbCell]
  · intro j
    beta_reduce
    rw [hfilter, find?_map_collapse _ hpo, collapse_relativeCellE]

theorem decodeRowsFor_collapse (dr : List BenchmarkResult) (size : ℕ) :
    decodeRowsFor (dr.map collapseZeroSize) size = decodeRowsFor dr size := by
  have hpj : ∀ r : BenchmarkResult,
      ((fun x : BenchmarkResult => x.implementation == "J2KSwift") (collapseZeroSize r)) =
        (r.implementation == "J2KSwift") := fun r => by simp only [collapse_implementation]
  have hpo : ∀ r : BenchmarkResult,
      ((fun x : BenchmarkResult => x.implementation == "OpenJPEG") (collapseZeroSize r)) =
        (r.implementation == "OpenJPEG") := fun r => by simp only [collapse_implementation]
  have hps : ∀ r : BenchmarkResult,
      ((fun x : BenchmarkResult => x.image_size == size) (collapseZeroSize r)) =
        (r.image_size == size) := fun r => by simp only [collapse_image_size]
  have hfilter : (dr.map collapseZeroSize).filter
      (fun x : BenchmarkResult => x.image_size == size) =
      (dr.filter (fun x : BenchmarkResult => x.image_size == size)).map collapseZeroSize :=
    filter_map_collapse _ hps dr
  refine blockE_congr "decode" size
    ((dr.filter (fun x : BenchmarkResult => x.image_size == size)).find?
      (fun x => x.implementation == "J2KSwift"))
    ((dr.filter (fun x : BenchmarkResult => x.image_size == size)).find?
      (fun x => x.implementation == "OpenJPEG"))
    (((dr.map collapseZeroSize).filter (fun x : BenchmarkResult => x.image_size == size)).find?
      (fun x => x.implementation == "J2KSwift"))
    (((dr.map collapseZeroSize).filter (fun x : BenchmarkResult => x.image_size == size)).find?
      (fun x => x.implementation == "OpenJPEG"))
    (fun x => statCells x) (fun x => statCells x)
    (fun x => statCells x) (fun x => statCells x)
    (fun x => relativeCellE
      ((dr.filter (fun r : BenchmarkResult => r.image_size == size)).find?
        (fun r => r.implementation == "OpenJPEG")) x)
    (fun x => relativeCellE
      (((dr.map collapseZeroSize).filter (fun r : BenchmarkResult => r.image_size == size)).find?
        (fun r => r.implementation == "OpenJPEG")) x)
    (decodeRowsFor dr size) (decodeRowsFor (dr.map collapseZeroSize) size)
    rfl rfl ?_ ?_ ?_ ?_ ?_
  · rw [hfilter, find?_map_collapse _ hpj]
  · rw [hfilter, find?_map_collapse _ hpo]
  · intro j
    simp only [collapse_statCells]
  · intro o
    simp only [collapse_statCells]
  · intro j
    beta_reduce
    rw [hfilter, find?_map_collapse _ hpo, collapse_relativeCellE]

theorem isEmpty_map {α β : Type} (f : α → β) (l : List α) :
    (l.map f).isEmpty = l.isEmpty := by
  cases l <;> rfl

theorem summaryE_collapse (results : List BenchmarkResult) :
    summaryE (results.map collapseZeroSize) = summaryE results := by
  have hpe : ∀ r : BenchmarkResult,
      ((collapseZeroSize r).operation == "encode") = (r.operation == "encode") :=
    fun r => by simp only [collapse_operation]
  have hpd : ∀ r : BenchmarkResult,
      ((collapseZeroSize r).operation == "decode") = (r.operation == "decode") :=
    fun r => by simp only [collapse_operation]
  have hpj : ∀ r : BenchmarkResult,
      ((collapseZeroSize r).implementation == "J2KSwift") = (r.implementation == "J2KSwift") :=
    fun r => by simp only [collapse_implementation]
  have hpo : ∀ r : BenchmarkResult,
      ((collapseZeroSize r).implementation == "OpenJPEG") = (r.implementation == "OpenJPEG") :=
    fun r => by simp only [collapse_implementation]
  unfold summaryE
  simp only [
    filter_map_collapse (fun r : BenchmarkResult => r.operation == "encode") hpe,
    filter_map_collapse (fun r : BenchmarkResult => r.operation == "decode") hpd,
    filter_map_collapse (fun r : BenchmarkResult => r.implementation == "J2KSwift") hpj,
    filter_map_collapse (fun r : BenchmarkResult => r.implementation == "OpenJPEG") hpo,
    map_average_collapse, isEmpty_map]

theorem generate_markdown_report_collapse (ts : String) (results : List BenchmarkResult) :
    generate_markdown_report ts (results.map collapseZeroSize) =
      generate_markdown_report ts results := by
  have hpe : ∀ r : BenchmarkResult,
      ((collapseZeroSize r).operation == "encode") = (r.operation == "encode") :=
    fun r => by simp only [collapse_operation]
  have hpd : ∀ r : BenchmarkResult,
      ((collapseZeroSize r).operation == "decode") = (r.operation == "decode") :=
    fun r => by simp only [collapse_operation]
  have hsz : ((results.map collapseZeroSize).filter
      (fun r => r.operation == "encode")).map BenchmarkResult.image_size =
      (results.filter (fun r => r.operation == "encode")).map BenchmarkResult.image_size := by
    rw [filter_map_collapse _ hpe, List.map_map]
    exact List.map_congr_left (fun r _ => collapse_image_size r)
  have hencfun : encodeRowsFor ((results.map collapseZeroSize).filter
      (fun r => r.operation == "encode")) =
      encodeRowsFor (results.filter (fun r => r.operation == "encode")) := by
    rw [filter_map_collapse _ hpe]
    exact funext (encodeRowsFor_collapse _)
  have hdecfun : decodeRowsFor ((results.map collapseZeroSize).filter
      (fun r => r.operation == "decode")) =
      decodeRowsFor (results.filter (fun r => r.operation == "decode")) := by
    rw [filter_map_collapse _ hpd]
    exact funext (decodeRowsFor_collapse _)
  unfold generate_markdown_report
  simp only [summaryE_collapse, hsz, hencfun, hdecfun]

theorem mkCsvRow_collapse (r : BenchmarkResult) :
    mkCsvRow (collapseZeroSize r) = mkCsvRow r := by
  unfold collapseZeroSize
  split
  · next h =>
      show mkCsvRow { r with compressed_size := none } = mkCsvRow r
      unfold mkCsvRow
      simp only [h]
      rfl
  · rfl

/-- Claim C10: a compressed size measured as zero is indistinguishable from
an absent one at the report interface — replacing every `compressed_size =
some 0` by `none` leaves both the markdown report and the CSV rows exactly
unchanged; concretely the markdown compressed-size cell is the literal `N/A`
and the CSV compressed-size field is the empty string in both cases (Python
truthiness: `if r.compressed_size` is false for both `0` and `None`). -/
theorem C10_zero_compressed_size_invisible (ts : String) (results : List BenchmarkResult) :
    generate_markdown_report ts (results.map collapseZeroSize) =
      generate_markdown_report ts results ∧
    generate_csv_rows (results.map collapseZeroSize) = generate_csv_rows results ∧
    (∀ r : BenchmarkResult, r.compressed_size = some 0 →
      collapseZeroSize r = { r with compressed_size := none } ∧
      sizeKbCell r = "N/A" ∧ sizeKbCell { r with compressed_size := none } = "N/A" ∧
      (mkCsvRow r).compressedCell = "" ∧
      (mkCsvRow { r with compressed_size := none }).compressedCell = "") := by
  refine ⟨generate_markdown_report_collapse ts results, ?_, ?_⟩
  · unfold generate_csv_rows
    rw [List.map_map]
    exact List.map_congr_left (fun r _ => mkCsvRow_collapse r)
  · intro r h
    exact ⟨by simp [collapseZeroSize, h], by simp [sizeKbCell, h], by simp [sizeKbCell],
      by simp [mkCsvRow, h], by simp [mkCsvRow]⟩

/-- Witness for C10 at a result whose compressed size was measured as zero. -/
theorem C10_zero_compressed_size_invisible_witness :
    zeroSizeSample.compressed_size = some 0 ∧
    sizeKbCell zeroSizeSample = "N/A" ∧
    (mkCsvRow zeroSizeSample).compressedCell = "" ∧
    generate_markdown_report "t" ([zeroSizeSample].map collapseZeroSize) =
      generate_markdown_report "t" [zeroSizeSample] :=
  ⟨rfl,
   ((C10_zero_compressed_size_invisible "t" [zeroSizeSample]).2.2 zeroSizeSample rfl).2.1,
   ((C10_zero_compressed_size_invisible "t" [zeroSizeSample]).2.2 zeroSizeSample rfl).2.2.2.1,
   (C10_zero_compressed_size_invisible "t" [zeroSizeSample]).1⟩

end J2KSwift
